import Mathlib

/-!
LCD1602 over a PCF8574 I2C expander: shallow embedding of `lcd_i2c.c`.

The driver is embedded with explicit state passing.  The driver state holds the
two process-wide trackers of `lcd_i2c.c` (`g_displayOffset`, `g_cursorPos`) and
the history of bus transactions issued so far.  Everything the C code obtains
from outside (the status of each bus transaction, the contents of memory it
reads through a pointer) is supplied by an environment `Env`.

Machine integers are natural numbers or integers with explicit truncation
(`u8`, `u8i`) wherever the C code stores into an 8-bit object.
-/

namespace LcdI2c

/-! ## Status type and bus transport -/

/-- Modelled from the spec: the status type `HAL_StatusTypeDef` of the bus
transport, which `lcd_i2c.h` aliases as `LCD1602_I2C_Status_t` and which is
declared in the vendor header `main.h` (not part of the sources).  The driver
only compares a status with `HAL_OK` and returns `HAL_ERROR` for an invalid
parameter; the two further constructors are the remaining failure kinds of the
transport (busy, timeout). -/
inductive HAL_StatusTypeDef where
  | HAL_OK
  | HAL_ERROR
  | HAL_BUSY
  | HAL_TIMEOUT
  deriving DecidableEq

/-- Embedding of `typedef HAL_StatusTypeDef LCD1602_I2C_Status_t;` -/
abbrev LCD1602_I2C_Status_t := HAL_StatusTypeDef

open HAL_StatusTypeDef

/-- One transaction on the two-wire bus.  Every transaction of the driver goes
to the fixed address `PCF8574_ADDRESS` with timeout `HAL_MAX_DELAY`, so only the
kind of transaction and the byte written are recorded. -/
inductive BusEvent where
  | probe : BusEvent
  | write : Nat → BusEvent
  deriving DecidableEq

/-- What the driver gets from outside.
* `status h` is the status the transport returns for the last transaction of
  the history `h` (the transactions issued so far, oldest first);
* `memByte a` is the byte stored at absolute address `a` (`LCD1602_I2C_Init`
  hands integer constants to the transport as buffer pointers);
* `adjacentByte h` is the byte stored right after an 8-bit local `cmd` whose
  address is passed to the transmitter, which loads 16 bits from it, at the
  time of a call made with history `h`. -/
structure Env where
  status : List BusEvent → HAL_StatusTypeDef
  memByte : Nat → Nat
  adjacentByte : List BusEvent → Nat

/-- Driver state: `g_displayOffset`, `g_cursorPos[0]`, `g_cursorPos[1]` and the
bus transactions issued so far (oldest first). -/
structure Driver where
  g_displayOffset : Nat
  g_cursorPos : Nat × Nat
  log : List BusEvent
  deriving DecidableEq

/-- The initial values of the globals of `lcd_i2c.c`, with an empty bus history. -/
def Driver.initial : Driver :=
  { g_displayOffset := 0, g_cursorPos := (0, 0), log := [] }

/-- The bytes written to the bus so far, oldest first (probes left out). -/
def busWrites : List BusEvent → List Nat
  | [] => []
  | BusEvent.probe :: rest => busWrites rest
  | BusEvent.write b :: rest => b :: busWrites rest

/-- Embedding of `HAL_I2C_IsDeviceReady(g_hi2c, PCF8574_ADDRESS, 3, HAL_MAX_DELAY)`. -/
def HAL_I2C_IsDeviceReady (env : Env) (s : Driver) : HAL_StatusTypeDef × Driver :=
  let log := s.log ++ [BusEvent.probe]
  (env.status log, { s with log := log })

/-- Embedding of `HAL_I2C_Master_Transmit(g_hi2c, PCF8574_ADDRESS, &data, 1, HAL_MAX_DELAY)`
for the one byte `data`. -/
def HAL_I2C_Master_Transmit (env : Env) (data : Nat) (s : Driver) :
    HAL_StatusTypeDef × Driver :=
  let log := s.log ++ [BusEvent.write data]
  (env.status log, { s with log := log })

/-! ## Machine integers -/

/-- Conversion of a non-negative value to `__UINT8_TYPE__`. -/
def u8 (n : Nat) : Nat := n % 256

/-- Conversion of an `int` value to `__UINT8_TYPE__`. -/
def u8i (i : Int) : Nat := (i % 256).toNat

/-- The C operator `~` on a non-negative `int`, as a 32-bit pattern. -/
def bnot32 (x : Nat) : Nat := (2 ^ 32 - 1) ^^^ (x % 2 ^ 32)

/-! ## Pin mapping and instruction-word masks (`lcd_i2c.h`) -/

abbrev RS_INDEX_PIN : Nat := 0
abbrev RW_INDEX_PIN : Nat := 1
abbrev EN_INDEX_PIN : Nat := 2
abbrev BL_INDEX_PIN : Nat := 3
abbrev DB4_INDEX_PIN : Nat := 4
abbrev DB5_INDEX_PIN : Nat := 5
abbrev DB6_INDEX_PIN : Nat := 6
abbrev DB7_INDEX_PIN : Nat := 7
abbrev DB0_INDEX_PIN : Nat := DB4_INDEX_PIN
abbrev DB1_INDEX_PIN : Nat := DB5_INDEX_PIN
abbrev DB2_INDEX_PIN : Nat := DB6_INDEX_PIN
abbrev DB3_INDEX_PIN : Nat := DB7_INDEX_PIN

abbrev RS_INDEX_MSK : Nat := 9
abbrev RW_INDEX_MSK : Nat := 8
abbrev DB7_INDEX_MSK : Nat := 7
abbrev DB6_INDEX_MSK : Nat := 6
abbrev DB5_INDEX_MSK : Nat := 5
abbrev DB4_INDEX_MSK : Nat := 4
abbrev DB3_INDEX_MSK : Nat := 3
abbrev DB2_INDEX_MSK : Nat := 2
abbrev DB1_INDEX_MSK : Nat := 1
abbrev DB0_INDEX_MSK : Nat := 0

abbrev MSK_RS : Nat := 1 <<< RS_INDEX_MSK
abbrev MSK_RW : Nat := 1 <<< RW_INDEX_MSK
abbrev MSK_DB7 : Nat := 1 <<< DB7_INDEX_MSK
abbrev MSK_DB6 : Nat := 1 <<< DB6_INDEX_MSK
abbrev MSK_DB5 : Nat := 1 <<< DB5_INDEX_MSK
abbrev MSK_DB4 : Nat := 1 <<< DB4_INDEX_MSK
abbrev MSK_DB3 : Nat := 1 <<< DB3_INDEX_MSK
abbrev MSK_DB2 : Nat := 1 <<< DB2_INDEX_MSK
abbrev MSK_DB1 : Nat := 1 <<< DB1_INDEX_MSK
abbrev MSK_DB0 : Nat := 1 <<< DB0_INDEX_MSK

/-! ## Nibble transmitter -/

/-- The value of `data` before the first bus write of `LCD1602_I2C_SendToLCD`
(lines 259-267): control bits, high nibble, enable set. -/
def SendToLCD_data1 (cmd : Nat) (isBacklightOn : Nat) : Nat :=
  let data := u8 (0x00 ||| (if isBacklightOn ≠ 0 then 1 <<< BL_INDEX_PIN else 0x00))
  let data := u8 (data ||| ((cmd &&& MSK_RS) >>> (RS_INDEX_MSK - RS_INDEX_PIN)))
  let data := u8 (data ||| ((cmd &&& MSK_RW) >>> (RW_INDEX_MSK - RW_INDEX_PIN)))
  let data := u8 (data ||| ((cmd &&& MSK_DB7) >>> (DB7_INDEX_MSK - DB7_INDEX_PIN)))
  let data := u8 (data ||| ((cmd &&& MSK_DB6) >>> (DB6_INDEX_MSK - DB6_INDEX_PIN)))
  let data := u8 (data ||| ((cmd &&& MSK_DB5) >>> (DB5_INDEX_MSK - DB5_INDEX_PIN)))
  let data := u8 (data ||| ((cmd &&& MSK_DB4) >>> (DB4_INDEX_MSK - DB4_INDEX_PIN)))
  u8 (data ||| (0x01 <<< EN_INDEX_PIN))

/-- The value of `data` before the second bus write (line 275). -/
def SendToLCD_data2 (cmd : Nat) (isBacklightOn : Nat) : Nat :=
  u8 (SendToLCD_data1 cmd isBacklightOn &&& bnot32 (0x01 <<< EN_INDEX_PIN))

/-- The value of `data` before the third bus write (lines 279-284). -/
def SendToLCD_data3 (cmd : Nat) (isBacklightOn : Nat) : Nat :=
  let data := u8 (SendToLCD_data2 cmd isBacklightOn ||| (0x01 <<< EN_INDEX_PIN))
  let data := u8 (data &&& 0x0F)
  let data := u8 (data ||| ((cmd &&& MSK_DB3) <<< (DB3_INDEX_PIN - DB3_INDEX_MSK)))
  let data := u8 (data ||| ((cmd &&& MSK_DB2) <<< (DB2_INDEX_PIN - DB2_INDEX_MSK)))
  let data := u8 (data ||| ((cmd &&& MSK_DB1) <<< (DB1_INDEX_PIN - DB1_INDEX_MSK)))
  u8 (data ||| ((cmd &&& MSK_DB0) <<< (DB0_INDEX_PIN - DB0_INDEX_MSK)))

/-- The value of `data` before the fourth bus write (line 288). -/
def SendToLCD_data4 (cmd : Nat) (isBacklightOn : Nat) : Nat :=
  u8 (SendToLCD_data3 cmd isBacklightOn &&& bnot32 (0x01 <<< EN_INDEX_PIN))

/-- Embedding of `LCD1602_I2C_SendToLCD(&cmd, isBacklightOn)` where `cmd` is the 16-bit value
loaded through the pointer: probe, then up to four writes, returning at the
first status that is not `HAL_OK`. -/
def LCD1602_I2C_SendToLCD (env : Env) (cmd : Nat) (isBacklightOn : Nat) (s : Driver) :
    LCD1602_I2C_Status_t × Driver :=
  let r := HAL_I2C_IsDeviceReady env s
  if r.1 ≠ HAL_OK then r else
  let r := HAL_I2C_Master_Transmit env (SendToLCD_data1 cmd isBacklightOn) r.2
  if r.1 ≠ HAL_OK then r else
  let r := HAL_I2C_Master_Transmit env (SendToLCD_data2 cmd isBacklightOn) r.2
  if r.1 ≠ HAL_OK then r else
  let r := HAL_I2C_Master_Transmit env (SendToLCD_data3 cmd isBacklightOn) r.2
  if r.1 ≠ HAL_OK then r else
  HAL_I2C_Master_Transmit env (SendToLCD_data4 cmd isBacklightOn) r.2

/-- The 16-bit value the transmitter loads through `&cmd` when the caller's
`cmd` is an 8-bit local: the low byte is `cmd`, the high byte is the byte that
follows it in memory (little-endian target). -/
def load16 (env : Env) (s : Driver) (cmd : Nat) : Nat :=
  u8 cmd + 256 * u8 (env.adjacentByte s.log)

/-! ## Command encoders -/

/-- The byte `cmd` built by `LCD1602_I2C_Clear_Display`. -/
def LCD1602_I2C_Clear_Display_cmd : Nat := u8 0b0000000001

/-- Embedding of `LCD1602_I2C_Clear_Display()`. -/
def LCD1602_I2C_Clear_Display (env : Env) (s : Driver) : LCD1602_I2C_Status_t × Driver :=
  LCD1602_I2C_SendToLCD env (load16 env s LCD1602_I2C_Clear_Display_cmd) 1 s

/-- The byte `cmd` built by `LCD1602_I2C_ReturnHome`. -/
def LCD1602_I2C_ReturnHome_cmd : Nat := u8 0b0000000010

/-- Embedding of `LCD1602_I2C_ReturnHome()`. -/
def LCD1602_I2C_ReturnHome (env : Env) (s : Driver) : LCD1602_I2C_Status_t × Driver :=
  LCD1602_I2C_SendToLCD env (load16 env s LCD1602_I2C_ReturnHome_cmd) 1 s

/-- The byte `cmd` built by `LCD1602_I2C_EntryModeSet(increment, shift)`. -/
def LCD1602_I2C_EntryModeSet_cmd (increment shift : Nat) : Nat :=
  let cmd := u8 0b0000000100
  let cmd := if increment ≠ 0 then u8 (cmd ||| (1 <<< 1)) else cmd
  let cmd := if shift ≠ 0 then u8 (cmd ||| (1 <<< 0)) else cmd
  cmd

/-- Embedding of `LCD1602_I2C_EntryModeSet(increment, shift)`. -/
def LCD1602_I2C_EntryModeSet (env : Env) (increment shift : Nat) (s : Driver) :
    LCD1602_I2C_Status_t × Driver :=
  LCD1602_I2C_SendToLCD env (load16 env s (LCD1602_I2C_EntryModeSet_cmd increment shift)) 1 s

/-- The byte `cmd` built by `LCD1602_I2C_DisplayControl(displayOn, cursorOn, blinkOn)`. -/
def LCD1602_I2C_DisplayControl_cmd (displayOn cursorOn blinkOn : Nat) : Nat :=
  let cmd := u8 0b0000001000
  let cmd := if displayOn ≠ 0 then u8 (cmd ||| (1 <<< 2)) else cmd
  let cmd := if cursorOn ≠ 0 then u8 (cmd ||| (1 <<< 1)) else cmd
  let cmd := if blinkOn ≠ 0 then u8 (cmd ||| (1 <<< 0)) else cmd
  cmd

/-- Embedding of `LCD1602_I2C_DisplayControl(displayOn, cursorOn, blinkOn)`. -/
def LCD1602_I2C_DisplayControl (env : Env) (displayOn cursorOn blinkOn : Nat) (s : Driver) :
    LCD1602_I2C_Status_t × Driver :=
  LCD1602_I2C_SendToLCD env
    (load16 env s (LCD1602_I2C_DisplayControl_cmd displayOn cursorOn blinkOn)) 1 s

/-- The part of `LCD1602_I2C_CursorDisplayShift(shiftDisplay, shiftRight)` that
precedes the transmission (lines 163-189): the byte `cmd` it builds and the
driver state after the tracker update. -/
def LCD1602_I2C_CursorDisplayShift_update (shiftDisplay shiftRight : Nat) (s : Driver) :
    Nat × Driver :=
  let cmd := u8 0b0000010000
  if shiftDisplay ≠ 0 then
    let cmd := u8 (cmd ||| (1 <<< 3))
    if shiftRight ≠ 0 then
      let cmd := u8 (cmd ||| (1 <<< 2))
      (cmd, { s with g_displayOffset :=
                if s.g_displayOffset + 1 ≥ 40 then 0 else u8 (s.g_displayOffset + 1) })
    else
      (cmd, { s with g_displayOffset :=
                if (s.g_displayOffset : Int) - 1 < 0 then 39
                else u8i ((s.g_displayOffset : Int) - 1) })
  else
    if shiftRight ≠ 0 then
      let cmd := u8 (cmd ||| (1 <<< 2))
      let col := u8 (s.g_cursorPos.1 + 1)
      if col ≥ 40 then
        (cmd, { s with g_cursorPos := (0, u8 ((s.g_cursorPos.2 + 1) % 2)) })
      else
        (cmd, { s with g_cursorPos := (col, s.g_cursorPos.2) })
    else
      if s.g_cursorPos.1 = 0 then
        (cmd, { s with g_cursorPos :=
                  (39, if (s.g_cursorPos.2 : Int) - 1 < 0 then 1
                       else u8i ((s.g_cursorPos.2 : Int) - 1)) })
      else
        (cmd, { s with g_cursorPos := (u8i ((s.g_cursorPos.1 : Int) - 1), s.g_cursorPos.2) })

/-- Embedding of `LCD1602_I2C_CursorDisplayShift(shiftDisplay, shiftRight)`: tracker update,
then transmission of the command. -/
def LCD1602_I2C_CursorDisplayShift (env : Env) (shiftDisplay shiftRight : Nat) (s : Driver) :
    LCD1602_I2C_Status_t × Driver :=
  let u := LCD1602_I2C_CursorDisplayShift_update shiftDisplay shiftRight s
  LCD1602_I2C_SendToLCD env (load16 env u.2 u.1) 1 u.2

/-- The byte `cmd` built by `LCD1602_I2C_FunctionSet(numLines, fontType)`. -/
def LCD1602_I2C_FunctionSet_cmd (numLines fontType : Nat) : Nat :=
  let cmd := u8 0b0000100000
  let cmd := if numLines ≠ 0 then u8 (cmd ||| (1 <<< 3)) else cmd
  let cmd := if fontType ≠ 0 then u8 (cmd ||| (1 <<< 2)) else cmd
  cmd

/-- Embedding of `LCD1602_I2C_FunctionSet(numLines, fontType)`. -/
def LCD1602_I2C_FunctionSet (env : Env) (numLines fontType : Nat) (s : Driver) :
    LCD1602_I2C_Status_t × Driver :=
  LCD1602_I2C_SendToLCD env (load16 env s (LCD1602_I2C_FunctionSet_cmd numLines fontType)) 1 s

/-- The byte `cmd` built by `LCD1602_I2C_SetCGRAMAddress(address)`. -/
def LCD1602_I2C_SetCGRAMAddress_cmd (address : Nat) : Nat :=
  let cmd := u8 0b0001000000
  u8 (cmd ||| (address &&& 0x3F))

/-- Embedding of `LCD1602_I2C_SetCGRAMAddress(address)`. -/
def LCD1602_I2C_SetCGRAMAddress (env : Env) (address : Nat) (s : Driver) :
    LCD1602_I2C_Status_t × Driver :=
  LCD1602_I2C_SendToLCD env (load16 env s (LCD1602_I2C_SetCGRAMAddress_cmd address)) 1 s

/-- The byte `cmd` built by `LCD1602_I2C_SetDDRAMAddress(address)`. -/
def LCD1602_I2C_SetDDRAMAddress_cmd (address : Nat) : Nat :=
  let cmd := u8 0b0010000000
  u8 (cmd ||| (address &&& 0x7F))

/-- Embedding of `LCD1602_I2C_SetDDRAMAddress(address)`. -/
def LCD1602_I2C_SetDDRAMAddress (env : Env) (address : Nat) (s : Driver) :
    LCD1602_I2C_Status_t × Driver :=
  LCD1602_I2C_SendToLCD env (load16 env s (LCD1602_I2C_SetDDRAMAddress_cmd address)) 1 s

/-- The 16-bit `cmd` built by `LCD1602_I2C_Write_Data(data)`. -/
def LCD1602_I2C_Write_Data_cmd (data : Nat) : Nat :=
  let cmd := 0b1000000000 % 2 ^ 16
  (cmd ||| (data &&& 0xFF)) % 2 ^ 16

/-- Embedding of `LCD1602_I2C_Write_Data(data)`; here `cmd` is a 16-bit local, so the
transmitter loads exactly the value built. -/
def LCD1602_I2C_Write_Data (env : Env) (data : Nat) (s : Driver) :
    LCD1602_I2C_Status_t × Driver :=
  LCD1602_I2C_SendToLCD env (LCD1602_I2C_Write_Data_cmd data) 1 s

/-- Embedding of `LCD1602_I2C_Set4BitMode()`: two raw writes, without a probe. -/
def LCD1602_I2C_Set4BitMode (env : Env) (s : Driver) : LCD1602_I2C_Status_t × Driver :=
  let data := u8 0b00000000
  let data := u8 (data ||| (1 <<< 5))
  let data := u8 (data ||| (1 <<< EN_INDEX_PIN))
  let data := u8 (data ||| (1 <<< BL_INDEX_PIN))
  let r := HAL_I2C_Master_Transmit env data s
  if r.1 ≠ HAL_OK then r else
  let data := u8 (data &&& bnot32 (1 <<< EN_INDEX_PIN))
  HAL_I2C_Master_Transmit env data r.2

/-! ## Public operations -/

/-- Embedding of `LCD1602_I2C_Init(hi2c)`.  The six raw transmissions of lines 308-317 pass
the integer constants `0b00111100` and `0b00111000` as the buffer pointer, so
the byte sent is the one stored at that address, and their status is dropped.
The handle and the delays (`HAL_Delay`) have no effect on the driver state or
on the bus history and are left out. -/
def LCD1602_I2C_Init (env : Env) (s : Driver) : LCD1602_I2C_Status_t × Driver :=
  let s := (HAL_I2C_Master_Transmit env (u8 (env.memByte 0b00111100)) s).2
  let s := (HAL_I2C_Master_Transmit env (u8 (env.memByte 0b00111000)) s).2
  let s := (HAL_I2C_Master_Transmit env (u8 (env.memByte 0b00111100)) s).2
  let s := (HAL_I2C_Master_Transmit env (u8 (env.memByte 0b00111000)) s).2
  let s := (HAL_I2C_Master_Transmit env (u8 (env.memByte 0b00111100)) s).2
  let s := (HAL_I2C_Master_Transmit env (u8 (env.memByte 0b00111000)) s).2
  let r := LCD1602_I2C_Set4BitMode env s
  if r.1 ≠ HAL_OK then r else
  let r := LCD1602_I2C_FunctionSet env 1 0 r.2
  if r.1 ≠ HAL_OK then r else
  let r := LCD1602_I2C_DisplayControl env 1 1 0 r.2
  if r.1 ≠ HAL_OK then r else
  let r := LCD1602_I2C_Clear_Display env r.2
  if r.1 ≠ HAL_OK then r else
  let r := LCD1602_I2C_EntryModeSet env 1 1 r.2
  if r.1 ≠ HAL_OK then r else
  r

/-- Embedding of `LCD1602_I2C_Clear()`. -/
def LCD1602_I2C_Clear (env : Env) (s : Driver) : LCD1602_I2C_Status_t × Driver :=
  LCD1602_I2C_Clear_Display env s

/-- Embedding of `LCD1602_I2C_MoveCursor(x, y)` for `int` arguments.  The expression of line
361 is evaluated in `int` with the truncating remainder of C; or-ing it into
the 8-bit `addr` keeps its low eight bits. -/
def LCD1602_I2C_MoveCursor (env : Env) (x y : Int) (s : Driver) :
    LCD1602_I2C_Status_t × Driver :=
  let addr := u8 0b00000000
  if x < 0 ∨ x ≥ 40 ∨ y < 0 ∨ y ≥ 2 then (HAL_ERROR, s) else
  let s := { s with g_cursorPos := (u8i x, u8i y) }
  let addr := if y = 1 then u8 (addr ||| 0x40) else addr
  let addr := u8 (addr |||
    u8i (Int.tmod (0x27 - (s.g_displayOffset : Int) + 1 + (u8i x : Int)) 0x28))
  LCD1602_I2C_SetDDRAMAddress env addr s

/-- Embedding of `LCD1602_I2C_ShowChar(c)`, the character given by its byte value. -/
def LCD1602_I2C_ShowChar (env : Env) (c : Nat) (s : Driver) : LCD1602_I2C_Status_t × Driver :=
  LCD1602_I2C_Write_Data env (u8 c) s

/-- The loop of `LCD1602_I2C_ShowString`.  The string is the list of the bytes
stored from `str` on; the loop ends at the first zero byte, and the byte after
the last one of the list is the terminating zero. -/
def LCD1602_I2C_ShowString_loop (env : Env) :
    List Nat → LCD1602_I2C_Status_t → Driver → LCD1602_I2C_Status_t × Driver
  | [], status, s => (status, s)
  | c :: str, status, s =>
    if u8 c = 0 then (status, s) else
    let r := LCD1602_I2C_Write_Data env (u8 c) s
    if r.1 ≠ HAL_OK then r else
    LCD1602_I2C_ShowString_loop env str r.1 r.2

/-- Embedding of `LCD1602_I2C_ShowString(str)`. -/
def LCD1602_I2C_ShowString (env : Env) (str : List Nat) (s : Driver) :
    LCD1602_I2C_Status_t × Driver :=
  LCD1602_I2C_ShowString_loop env str HAL_OK s

/-- Embedding of `LCD1602_I2C_ShiftDisplay(right)` for an `int` argument. -/
def LCD1602_I2C_ShiftDisplay (env : Env) (right : Int) (s : Driver) :
    LCD1602_I2C_Status_t × Driver :=
  if right ≠ 0 ∧ right ≠ 1 then (HAL_ERROR, s) else
  LCD1602_I2C_CursorDisplayShift env 1 (u8i right) s


/-! ## Vocabulary of the statements -/

/-- The control bits of an output byte in the words of the wire format: bit0 is
the register-select bit (bit 9 of the instruction word), bit1 the read/write
bit (bit 8 of the word), bit3 the backlight flag; bit2 (enable) is clear. -/
def controlBits (w b : Nat) : Nat :=
  (if w.testBit 9 then 1 else 0) ||| (if w.testBit 8 then 2 else 0) |||
    (if b ≠ 0 then 8 else 0)

/-- The four bytes of the wire format for the instruction word `w` and the
backlight flag `b`: high nibble with enable set, high nibble with enable clear,
low nibble with enable set, low nibble with enable clear. -/
def wireBytes (w b : Nat) : List Nat :=
  [controlBits w b ||| (w &&& 0xF0) ||| 0x04, controlBits w b ||| (w &&& 0xF0),
   controlBits w b ||| ((w &&& 0x0F) <<< 4) ||| 0x04, controlBits w b ||| ((w &&& 0x0F) <<< 4)]

/-- The four values of `data` that `LCD1602_I2C_SendToLCD` hands to the
transport, in order. -/
def codeBytes (w b : Nat) : List Nat :=
  [SendToLCD_data1 w b, SendToLCD_data2 w b, SendToLCD_data3 w b, SendToLCD_data4 w b]

/-- The transport answers `HAL_OK` to each of the transactions `evs`, issued in
this order after the history `h`. -/
def answersOK (env : Env) : List BusEvent → List BusEvent → Bool
  | _, [] => true
  | h, ev :: rest => decide (env.status (h ++ [ev]) = HAL_OK) && answersOK env (h ++ [ev]) rest

/-- A transport that answers `HAL_OK` to everything; memory reads give zero. -/
def envAllOK : Env :=
  { status := fun _ => HAL_OK, memByte := fun _ => 0, adjacentByte := fun _ => 0 }

/-- A transport that answers `e` to the transaction number `n` (counted from 1)
and `HAL_OK` to every other one; memory reads give zero. -/
def envFailAt (n : Nat) (e : HAL_StatusTypeDef) : Env :=
  { status := fun h => if h.length = n then e else HAL_OK,
    memByte := fun _ => 0, adjacentByte := fun _ => 0 }

/-- The physical RAM address of the spec for the logical position `(x, y)` under
the display offset `offset`:
`(row == 1 ? 0x40 : 0) + ((0x27 - offset + 1 + x) mod 0x28)`. -/
def physicalAddress (offset : Nat) (x y : Int) : Int :=
  (if y = 1 then 0x40 else 0) + (0x27 - (offset : Int) + 1 + x) % 0x28

/-- The state after `n` consecutive calls of the operation `op`. -/
def repeatOp (op : Driver → LCD1602_I2C_Status_t × Driver) : Nat → Driver → Driver
  | 0, s => s
  | n + 1, s => repeatOp op n (op s).2

/-- The bus writes of a string in the words of the spec: for each character `c`,
in order, the four bytes of the wire format of the write-data word `0x200 | c`
with the backlight on. -/
def stringWireBytes : List Nat → List Nat
  | [] => []
  | c :: str => wireBytes (0x200 ||| c) 1 ++ stringWireBytes str

/-- A transport that answers `HAL_OK` to everything, over a memory given by
`mem`, where the byte that follows an 8-bit `cmd` local is always `adj`. -/
def envWith (mem : Nat → Nat) (adj : Nat) : Env :=
  { status := fun _ => HAL_OK, memByte := mem, adjacentByte := fun _ => adj }

/-- The write-data operations of the characters of `str`, issued in order from
the state `s`, all return `HAL_OK`. -/
def writesSucceed (env : Env) : List Nat → Driver → Bool
  | [], _ => true
  | c :: str, s =>
    decide ((LCD1602_I2C_Write_Data env (u8 c) s).1 = HAL_OK) &&
      writesSucceed env str (LCD1602_I2C_Write_Data env (u8 c) s).2

/-- The state after the write-data operations of the characters of `str`,
issued in order from the state `s`. -/
def afterWrites (env : Env) : List Nat → Driver → Driver
  | [], s => s
  | c :: str, s => afterWrites env str (LCD1602_I2C_Write_Data env (u8 c) s).2

/-- The range predicate of the position tracker: display offset in 0..39, cursor
column in 0..39, cursor row in 0..1. -/
def inRange (s : Driver) : Prop :=
  s.g_displayOffset < 40 ∧ s.g_cursorPos.1 < 40 ∧ s.g_cursorPos.2 < 2

instance (s : Driver) : Decidable (inRange s) := by
  unfold inRange
  infer_instance

/-- The operations of the driver that a caller can invoke, with their arguments. -/
inductive Op where
  | init : Op
  | clear : Op
  | moveCursor : Int → Int → Op
  | showChar : Nat → Op
  | showString : List Nat → Op
  | shiftDisplay : Int → Op
  | cursorDisplayShift : Nat → Nat → Op

/-- The call of one operation. -/
def Op.run (env : Env) : Op → Driver → LCD1602_I2C_Status_t × Driver
  | Op.init, s => LCD1602_I2C_Init env s
  | Op.clear, s => LCD1602_I2C_Clear env s
  | Op.moveCursor x y, s => LCD1602_I2C_MoveCursor env x y s
  | Op.showChar c, s => LCD1602_I2C_ShowChar env c s
  | Op.showString str, s => LCD1602_I2C_ShowString env str s
  | Op.shiftDisplay right, s => LCD1602_I2C_ShiftDisplay env right s
  | Op.cursorDisplayShift display right, s =>
    LCD1602_I2C_CursorDisplayShift env display right s

/-- The state after a sequence of calls, first call first. -/
def runOps (env : Env) : List Op → Driver → Driver
  | [], s => s
  | op :: ops, s => runOps env ops (op.run env s).2

/-- The outcome `r` of a call made in the state `s` is that of one transmission
of the word `w` with the backlight on: display offset and tracked cursor are
those of `s`; the bus history of `s` is extended by one probe followed by the
first `k` writes of the wire format of `w`, for some `k` from 0 to 4; every
transaction before the last one was answered `HAL_OK`; the status returned is
the answer of the transport to the last transaction; and the transmission is
cut short (`k < 4`) only when that answer is not `HAL_OK`. -/
def transmitsOnce (env : Env) (w : Nat) (s : Driver) (r : LCD1602_I2C_Status_t × Driver) :
    Prop :=
  r.2.g_displayOffset = s.g_displayOffset ∧ r.2.g_cursorPos = s.g_cursorPos ∧
    ∃ k, k ≤ 4 ∧
      r.2.log = s.log ++ BusEvent.probe :: ((wireBytes w 1).take k).map BusEvent.write ∧
      answersOK env s.log
        ((BusEvent.probe :: (wireBytes w 1).map BusEvent.write).take k) = true ∧
      r.1 = env.status r.2.log ∧
      (k < 4 → r.1 ≠ HAL_OK)

/-- The outcome `r` of an encoder called with the driver in the state `s` is the
outcome of the transmitter called in `s`, with the backlight on, on the word
loaded from a command byte equal to `payload`; the low eight bits of that word
are `payload`. -/
def sendsPayload (env : Env) (payload : Nat) (s : Driver)
    (r : LCD1602_I2C_Status_t × Driver) : Prop :=
  r = LCD1602_I2C_SendToLCD env (load16 env s payload) 1 s ∧
    load16 env s payload % 256 = payload

/-! ## Bit-level lemmas -/

theorem mod_and_mask (w m : Nat) (hm : 1023 &&& m = m) : (w % 1024) &&& m = w &&& m := by
  have h : w % 1024 = w &&& 1023 := (Nat.and_pow_two_sub_one_eq_mod w 10).symm
  rw [h, Nat.and_assoc, hm]

theorem codeBytes_mod (w b : Nat) : codeBytes w b = codeBytes (w % 1024) b := by
  simp only [codeBytes, SendToLCD_data1, SendToLCD_data2, SendToLCD_data3, SendToLCD_data4]
  rw [mod_and_mask w MSK_RS (by decide), mod_and_mask w MSK_RW (by decide),
    mod_and_mask w MSK_DB7 (by decide), mod_and_mask w MSK_DB6 (by decide),
    mod_and_mask w MSK_DB5 (by decide), mod_and_mask w MSK_DB4 (by decide),
    mod_and_mask w MSK_DB3 (by decide), mod_and_mask w MSK_DB2 (by decide),
    mod_and_mask w MSK_DB1 (by decide), mod_and_mask w MSK_DB0 (by decide)]

theorem wireBytes_mod (w b : Nat) : wireBytes w b = wireBytes (w % 1024) b := by
  have h9 : (w % 1024).testBit 9 = w.testBit 9 := by
    have := Nat.testBit_mod_two_pow w 10 9
    simpa using this
  have h8 : (w % 1024).testBit 8 = w.testBit 8 := by
    have := Nat.testBit_mod_two_pow w 10 8
    simpa using this
  simp only [wireBytes, controlBits, h9, h8]
  rw [mod_and_mask w 0xF0 (by decide), mod_and_mask w 0x0F (by decide)]

set_option maxRecDepth 100000 in
theorem codeBytes_small :
    ∀ w, w < 1024 → codeBytes w 0 = wireBytes w 0 ∧ codeBytes w 1 = wireBytes w 1 := by
  decide

theorem codeBytes_flag (w b : Nat) (hb : b ≠ 0) : codeBytes w b = codeBytes w 1 := by
  simp [codeBytes, SendToLCD_data1, SendToLCD_data2, SendToLCD_data3, SendToLCD_data4, hb]

theorem wireBytes_flag (w b : Nat) (hb : b ≠ 0) : wireBytes w b = wireBytes w 1 := by
  simp [wireBytes, controlBits, hb]

/-- The bytes the code computes are the bytes of the wire format. -/
theorem codeBytes_eq_wireBytes (w b : Nat) : codeBytes w b = wireBytes w b := by
  rw [codeBytes_mod, wireBytes_mod]
  have hs := codeBytes_small (w % 1024) (Nat.mod_lt _ (by decide))
  by_cases hb : b = 0
  · subst hb; exact hs.1
  · rw [codeBytes_flag _ b hb, wireBytes_flag _ b hb]; exact hs.2

theorem SendToLCD_data1_eq (w b : Nat) :
    SendToLCD_data1 w b = controlBits w b ||| (w &&& 0xF0) ||| 0x04 := by
  have h := codeBytes_eq_wireBytes w b
  simp only [codeBytes, wireBytes, List.cons.injEq] at h
  exact h.1

theorem SendToLCD_data2_eq (w b : Nat) :
    SendToLCD_data2 w b = controlBits w b ||| (w &&& 0xF0) := by
  have h := codeBytes_eq_wireBytes w b
  simp only [codeBytes, wireBytes, List.cons.injEq] at h
  exact h.2.1

theorem SendToLCD_data3_eq (w b : Nat) :
    SendToLCD_data3 w b = controlBits w b ||| ((w &&& 0x0F) <<< 4) ||| 0x04 := by
  have h := codeBytes_eq_wireBytes w b
  simp only [codeBytes, wireBytes, List.cons.injEq] at h
  exact h.2.2.1

theorem SendToLCD_data4_eq (w b : Nat) :
    SendToLCD_data4 w b = controlBits w b ||| ((w &&& 0x0F) <<< 4) := by
  have h := codeBytes_eq_wireBytes w b
  simp only [codeBytes, wireBytes, List.cons.injEq] at h
  exact h.2.2.2.1

theorem busWrites_append (l₁ l₂ : List BusEvent) :
    busWrites (l₁ ++ l₂) = busWrites l₁ ++ busWrites l₂ := by
  induction l₁ with
  | nil => rfl
  | cons ev rest ih => cases ev <;> simp [busWrites, ih]

theorem busWrites_map_write (l : List Nat) : busWrites (l.map BusEvent.write) = l := by
  induction l with
  | nil => rfl
  | cons b rest ih => simp [busWrites, ih]

/-! ## The nibble transmitter -/

/-- When the transport answers `HAL_OK` to the probe and the four writes, the
transmitter returns `HAL_OK` after the probe and the four writes of the wire
format. -/
theorem SendToLCD_of_answersOK (env : Env) (s : Driver) (w b : Nat)
    (hok : answersOK env s.log (BusEvent.probe :: (wireBytes w b).map BusEvent.write) = true) :
    LCD1602_I2C_SendToLCD env w b s =
      (HAL_OK, { s with log := s.log ++
        BusEvent.probe :: (wireBytes w b).map BusEvent.write }) := by
  simp [answersOK, wireBytes] at hok
  obtain ⟨h0, h1, h2, h3, h4⟩ := hok
  simp [LCD1602_I2C_SendToLCD, HAL_I2C_IsDeviceReady, HAL_I2C_Master_Transmit,
    SendToLCD_data1_eq, SendToLCD_data2_eq, SendToLCD_data3_eq, SendToLCD_data4_eq,
    wireBytes, h0, h1, h2, h3, h4]

/-- A transport that always answers `HAL_OK` answers `HAL_OK` to any sequence of
transactions. -/
theorem answersOK_of_always (env : Env) (hbus : ∀ h, env.status h = HAL_OK)
    (h evs : List BusEvent) : answersOK env h evs = true := by
  induction evs generalizing h with
  | nil => rfl
  | cons ev rest ih => simp [answersOK, hbus, ih]

/-- The transmitter changes neither the display offset nor the tracked cursor
position, and only extends the bus history. -/
theorem SendToLCD_frame (env : Env) (s : Driver) (w b : Nat) :
    (LCD1602_I2C_SendToLCD env w b s).2.g_displayOffset = s.g_displayOffset ∧
      (LCD1602_I2C_SendToLCD env w b s).2.g_cursorPos = s.g_cursorPos := by
  unfold LCD1602_I2C_SendToLCD HAL_I2C_IsDeviceReady HAL_I2C_Master_Transmit
  simp only []
  split_ifs <;> exact ⟨rfl, rfl⟩

/-- C1: for every instruction word `w` and backlight flag `b`, when the transport
answers `HAL_OK` to the probe and to the four writes, `LCD1602_I2C_SendToLCD`
returns `HAL_OK` and adds to the bus history exactly the probe followed by the
four writes `C|H|0x04, C|H, C|L|0x04, C|L` of the wire format; for
`w = 0b1001000001` with the backlight on these are `0x4D, 0x49, 0x1D, 0x19`. -/
theorem C1_SendToLCD_four_writes (env : Env) (s : Driver) (w b : Nat)
    (hok : answersOK env s.log (BusEvent.probe :: (wireBytes w b).map BusEvent.write) = true) :
    LCD1602_I2C_SendToLCD env w b s =
        (HAL_OK, { s with log := s.log ++
          BusEvent.probe :: (wireBytes w b).map BusEvent.write }) ∧
      busWrites (LCD1602_I2C_SendToLCD env w b s).2.log = busWrites s.log ++ wireBytes w b ∧
      wireBytes 0b1001000001 1 = [0x4D, 0x49, 0x1D, 0x19] := by
  have hsend := SendToLCD_of_answersOK env s w b hok
  refine ⟨hsend, ?_, by decide⟩
  rw [hsend]
  simp [busWrites_append, busWrites, wireBytes]

/-- Witness of C1: the word `0b1001000001` with the backlight on, from the
initial state, over a transport that always succeeds. -/
theorem C1_SendToLCD_four_writes_witness :
    answersOK envAllOK Driver.initial.log
        (BusEvent.probe :: (wireBytes 0b1001000001 1).map BusEvent.write) = true ∧
      (LCD1602_I2C_SendToLCD envAllOK 0b1001000001 1 Driver.initial =
        (HAL_OK, { Driver.initial with log := Driver.initial.log ++
          BusEvent.probe :: (wireBytes 0b1001000001 1).map BusEvent.write }) ∧
      busWrites (LCD1602_I2C_SendToLCD envAllOK 0b1001000001 1 Driver.initial).2.log =
        busWrites Driver.initial.log ++ wireBytes 0b1001000001 1 ∧
      wireBytes 0b1001000001 1 = [0x4D, 0x49, 0x1D, 0x19]) :=
  ⟨by decide, C1_SendToLCD_four_writes envAllOK Driver.initial 0b1001000001 1 (by decide)⟩
/-- C2: `LCD1602_I2C_SendToLCD` stops at the first transaction that fails.  If
the probe is answered with a status `e` other than `HAL_OK`, it returns `e` and
no write is issued.  If the probe and the first `k - 1` writes are answered
`HAL_OK` and the `k`-th write (`1 ≤ k ≤ 4`) is answered with `e` other than
`HAL_OK`, it returns `e` and exactly the first `k` writes of the wire format
have been issued. -/
theorem C2_SendToLCD_fails_fast (env : Env) (s : Driver) (w b : Nat) :
    (∀ e, e ≠ HAL_OK → env.status (s.log ++ [BusEvent.probe]) = e →
      LCD1602_I2C_SendToLCD env w b s = (e, { s with log := s.log ++ [BusEvent.probe] }) ∧
      busWrites (LCD1602_I2C_SendToLCD env w b s).2.log = busWrites s.log) ∧
    (∀ k e, 1 ≤ k → k ≤ 4 → e ≠ HAL_OK →
      answersOK env s.log
        (BusEvent.probe :: ((wireBytes w b).take (k - 1)).map BusEvent.write) = true →
      env.status (s.log ++
        BusEvent.probe :: ((wireBytes w b).take k).map BusEvent.write) = e →
      LCD1602_I2C_SendToLCD env w b s =
        (e, { s with log := s.log ++
          BusEvent.probe :: ((wireBytes w b).take k).map BusEvent.write }) ∧
      busWrites (LCD1602_I2C_SendToLCD env w b s).2.log =
        busWrites s.log ++ (wireBytes w b).take k ∧
      ((wireBytes w b).take k).length = k) := by
  constructor
  · intro e he hp
    have hsend : LCD1602_I2C_SendToLCD env w b s =
        (e, { s with log := s.log ++ [BusEvent.probe] }) := by
      simp [LCD1602_I2C_SendToLCD, HAL_I2C_IsDeviceReady, hp, he]
    refine ⟨hsend, ?_⟩
    rw [hsend]
    simp [busWrites_append, busWrites]
  · intro k e hk1 hk4 he hpre hfail
    have hsend : LCD1602_I2C_SendToLCD env w b s =
        (e, { s with log := s.log ++
          BusEvent.probe :: ((wireBytes w b).take k).map BusEvent.write }) := by
      interval_cases k
      · simp [answersOK, wireBytes] at hpre hfail
        simp [LCD1602_I2C_SendToLCD, HAL_I2C_IsDeviceReady, HAL_I2C_Master_Transmit,
          SendToLCD_data1_eq, wireBytes, hpre, hfail, he]
      · simp [answersOK, wireBytes] at hpre hfail
        obtain ⟨h0, h1⟩ := hpre
        simp [LCD1602_I2C_SendToLCD, HAL_I2C_IsDeviceReady, HAL_I2C_Master_Transmit,
          SendToLCD_data1_eq, SendToLCD_data2_eq, wireBytes, h0, h1, hfail, he]
      · simp [answersOK, wireBytes] at hpre hfail
        obtain ⟨h0, h1, h2⟩ := hpre
        simp [LCD1602_I2C_SendToLCD, HAL_I2C_IsDeviceReady, HAL_I2C_Master_Transmit,
          SendToLCD_data1_eq, SendToLCD_data2_eq, SendToLCD_data3_eq, wireBytes,
          h0, h1, h2, hfail, he]
      · simp [answersOK, wireBytes] at hpre hfail
        obtain ⟨h0, h1, h2, h3⟩ := hpre
        simp [LCD1602_I2C_SendToLCD, HAL_I2C_IsDeviceReady, HAL_I2C_Master_Transmit,
          SendToLCD_data1_eq, SendToLCD_data2_eq, SendToLCD_data3_eq, SendToLCD_data4_eq,
          wireBytes, h0, h1, h2, h3, hfail]
    refine ⟨hsend, ?_, ?_⟩
    · rw [hsend]
      simp only [busWrites_append, busWrites, busWrites_map_write]
    · simp [wireBytes]; omega

/-- Witness of C2: from the initial state with the word `0b1001000001`, a
transport whose first transaction (the probe) fails, and a transport whose
fourth transaction (the third write) times out. -/
theorem C2_SendToLCD_fails_fast_witness :
    (HAL_ERROR ≠ HAL_OK ∧
      (envFailAt 1 HAL_ERROR).status (Driver.initial.log ++ [BusEvent.probe]) = HAL_ERROR ∧
      LCD1602_I2C_SendToLCD (envFailAt 1 HAL_ERROR) 0b1001000001 1 Driver.initial =
        (HAL_ERROR, { Driver.initial with log := Driver.initial.log ++ [BusEvent.probe] })) ∧
    (1 ≤ 3 ∧ 3 ≤ 4 ∧ HAL_TIMEOUT ≠ HAL_OK ∧
      answersOK (envFailAt 4 HAL_TIMEOUT) Driver.initial.log
        (BusEvent.probe :: ((wireBytes 0b1001000001 1).take (3 - 1)).map BusEvent.write) = true ∧
      (envFailAt 4 HAL_TIMEOUT).status (Driver.initial.log ++
        BusEvent.probe :: ((wireBytes 0b1001000001 1).take 3).map BusEvent.write) = HAL_TIMEOUT ∧
      LCD1602_I2C_SendToLCD (envFailAt 4 HAL_TIMEOUT) 0b1001000001 1 Driver.initial =
        (HAL_TIMEOUT, { Driver.initial with log :=
          [BusEvent.probe, BusEvent.write 0x4D, BusEvent.write 0x49, BusEvent.write 0x1D] })) :=
  ⟨⟨by decide, by decide,
      ((C2_SendToLCD_fails_fast (envFailAt 1 HAL_ERROR) Driver.initial 0b1001000001 1).1
        HAL_ERROR (by decide) (by decide)).1⟩,
    ⟨by decide, by decide, by decide, by decide, by decide,
      ((C2_SendToLCD_fails_fast (envFailAt 4 HAL_TIMEOUT) Driver.initial 0b1001000001 1).2
        3 HAL_TIMEOUT (by decide) (by decide) (by decide) (by decide) (by decide)).1⟩⟩

/-! ## Cursor addressing -/

theorem u8i_natCast (n : Nat) (h : n < 256) : u8i (n : Int) = n := by
  unfold u8i
  rw [Int.emod_eq_of_lt (by omega) (by omega)]
  exact Int.toNat_ofNat n

theorem moveCursor_column (o n : Nat) (ho : o < 40) (hn : n < 40) :
    ∃ v : Nat, v < 40 ∧
      u8i (Int.tmod (0x27 - (o : Int) + 1 + ((u8i (n : Int) : Nat) : Int)) 0x28) = v ∧
      (0x27 - (o : Int) + 1 + (n : Int)) % 0x28 = (v : Int) := by
  rw [u8i_natCast n (by omega), Int.tmod_eq_emod (by omega) (by omega)]
  generalize hE : (0x27 - (o : Int) + 1 + (n : Int)) % 0x28 = e
  have he : 0 ≤ e ∧ e < 40 := by omega
  obtain ⟨v, rfl⟩ := Int.eq_ofNat_of_zero_le he.1
  exact ⟨v, by omega, u8i_natCast v (by omega), rfl⟩

theorem setDDRAM_rows : ∀ v, v < 40 →
    (LCD1602_I2C_SetDDRAMAddress_cmd (u8 (u8 0b00000000 ||| v)) = 0x80 ||| v ∧
      0x80 ||| v < 256) ∧
    (LCD1602_I2C_SetDDRAMAddress_cmd (u8 (u8 (u8 0b00000000 ||| 0x40) ||| v)) =
      0x80 ||| (0x40 + v) ∧ 0x80 ||| (0x40 + v) < 256) := by
  decide

theorem load16_payload (env : Env) (s : Driver) (cmd : Nat) (h : cmd < 256) :
    load16 env s cmd % 256 = cmd := by
  unfold load16 u8
  omega

/-- The address computation of `LCD1602_I2C_MoveCursor`: with the display offset
in 0..39, `x` in 0..39 and `y` in {0, 1}, the call hands to the transmitter, on
the state whose tracked cursor is `(x, y)`, the word loaded from the command
byte `0x80 | A` with `A = (y == 1 ? 0x40 : 0) + ((0x27 - offset + 1 + x) mod 0x28)`;
the low eight bits of that word are `0x80 | A`, whatever byte follows the
command byte in memory.  With offset 0 the address of (0, 0) is `0x00` and the
address of (0, 1) is `0x40`. -/
theorem MoveCursor_address_payload (env : Env) (s : Driver) (x y : Int)
    (ho : s.g_displayOffset < 40) (hx0 : 0 ≤ x) (hx : x < 40) (hy : y = 0 ∨ y = 1) :
    LCD1602_I2C_MoveCursor env x y s =
        LCD1602_I2C_SendToLCD env
          (load16 env s (0x80 ||| (physicalAddress s.g_displayOffset x y).toNat)) 1
          { s with g_cursorPos := (x.toNat, y.toNat) } ∧
      load16 env s (0x80 ||| (physicalAddress s.g_displayOffset x y).toNat) % 256 =
        0x80 ||| (physicalAddress s.g_displayOffset x y).toNat ∧
      physicalAddress 0 0 0 = 0x00 ∧ physicalAddress 0 0 1 = 0x40 := by
  obtain ⟨n, rfl⟩ := Int.eq_ofNat_of_zero_le hx0
  have hn : n < 40 := by omega
  obtain ⟨v, hv, hcode, hspec⟩ := moveCursor_column s.g_displayOffset n ho hn
  have hnot : ¬ ((n : Int) < 0 ∨ (n : Int) ≥ 40 ∨ y < 0 ∨ y ≥ 2) := by omega
  have hrows := setDDRAM_rows v hv
  have hcmd : LCD1602_I2C_MoveCursor env n y s =
      LCD1602_I2C_SendToLCD env
          (load16 env s (0x80 ||| (physicalAddress s.g_displayOffset n y).toNat)) 1
          { s with g_cursorPos := ((n : Int).toNat, y.toNat) } ∧
      0x80 ||| (physicalAddress s.g_displayOffset n y).toNat < 256 := by
    rcases hy with hy | hy
    · subst hy
      have hA : (physicalAddress s.g_displayOffset n 0).toNat = v := by
        unfold physicalAddress
        rw [hspec]
        simp
      rw [hA]
      refine ⟨?_, hrows.1.2⟩
      simp only [LCD1602_I2C_MoveCursor, hnot, if_false, hcode, LCD1602_I2C_SetDDRAMAddress]
      rw [if_neg (by decide), hrows.1.1, u8i_natCast n (by omega)]
      rfl
    · subst hy
      have hA : (physicalAddress s.g_displayOffset n 1).toNat = 0x40 + v := by
        unfold physicalAddress
        rw [hspec]
        simp
        omega
      rw [hA]
      refine ⟨?_, hrows.2.2⟩
      simp only [LCD1602_I2C_MoveCursor, hnot, if_false, hcode, LCD1602_I2C_SetDDRAMAddress]
      rw [if_pos trivial, hrows.2.1, u8i_natCast n (by omega)]
      rfl
  exact ⟨hcmd.1, load16_payload env s _ hcmd.2, by decide, by decide⟩

/-- The transmitter reads the low 10 bits of the word only. -/
theorem SendToLCD_mod (env : Env) (s : Driver) (w b : Nat) :
    LCD1602_I2C_SendToLCD env w b s = LCD1602_I2C_SendToLCD env (w % 1024) b s := by
  have hc := codeBytes_mod w b
  simp only [codeBytes, List.cons.injEq, and_true] at hc
  obtain ⟨h1, h2, h3, h4⟩ := hc
  simp only [LCD1602_I2C_SendToLCD, h1, h2, h3, h4]

/-- When the two low bits of the byte that follows `cmd` in memory are clear,
`LCD1602_I2C_MoveCursor(x, y)` transmits the Set-DDRAM-Address instruction
`0x80 | A` itself (register-select and read/write clear). -/
theorem MoveCursor_of_clean_adjacent (env : Env) (s : Driver) (x y : Int)
    (ho : s.g_displayOffset < 40) (hx0 : 0 ≤ x) (hx : x < 40) (hy : y = 0 ∨ y = 1)
    (ha : env.adjacentByte s.log % 4 = 0) :
    LCD1602_I2C_MoveCursor env x y s =
      LCD1602_I2C_SendToLCD env (0x80 ||| (physicalAddress s.g_displayOffset x y).toNat) 1
        { s with g_cursorPos := (x.toNat, y.toNat) } := by
  obtain ⟨hm, hp, _, _⟩ := MoveCursor_address_payload env s x y ho hx0 hx hy
  rw [hm, SendToLCD_mod env _ (load16 env s _), SendToLCD_mod env _ (0x80 ||| _)]
  have hw : load16 env s (0x80 ||| (physicalAddress s.g_displayOffset x y).toNat) % 1024 =
      (0x80 ||| (physicalAddress s.g_displayOffset x y).toNat) % 1024 := by
    revert hp
    generalize 0x80 ||| (physicalAddress s.g_displayOffset x y).toNat = c
    unfold load16 u8
    intro hp
    omega
  rw [hw]

/-- C3, evaluation of the code where it departs from the claim: with display
offset 0 and the byte `0x02` stored after the 8-bit `cmd` of
`LCD1602_I2C_SetDDRAMAddress`, `LCD1602_I2C_MoveCursor(0, 0)` hands the word
`0x280` to the transmitter: the four bytes written are `0x8D, 0x89, 0x0D, 0x09`,
with bit0 (register-select) set, the same bytes as `LCD1602_I2C_ShowChar(0x80)`
writes.  The payload is the computed one, `0x80 | 0x00`, but what is
transmitted is a data write, not the Set-DDRAM-Address instruction. -/
theorem C3_MoveCursor_word_takes_adjacent_byte :
    load16 (envWith (fun _ => 0) 0x02) Driver.initial
        (0x80 ||| (physicalAddress 0 0 0).toNat) = 0x280 ∧
      busWrites (LCD1602_I2C_MoveCursor (envWith (fun _ => 0) 0x02) 0 0 Driver.initial).2.log =
        [0x8D, 0x89, 0x0D, 0x09] ∧
      busWrites (LCD1602_I2C_ShowChar (envWith (fun _ => 0) 0x02) 0x80 Driver.initial).2.log =
        [0x8D, 0x89, 0x0D, 0x09] ∧
      [0x8D, 0x89, 0x0D, 0x09].map (fun b => Nat.testBit b RS_INDEX_PIN) =
        [true, true, true, true] ∧
      (LCD1602_I2C_MoveCursor (envWith (fun _ => 0) 0x02) 0 0 Driver.initial).1 = HAL_OK := by
  decide

/-- C4: for arguments outside the valid range (`x < 0`, `x ≥ 40`, `y < 0` or
`y ≥ 2`), `LCD1602_I2C_MoveCursor` returns `HAL_ERROR` and the driver state is
untouched: same tracked cursor, same display offset, and no transaction (probe
or write) is added to the bus history. -/
theorem C4_MoveCursor_invalid (env : Env) (s : Driver) (x y : Int)
    (h : x < 0 ∨ x ≥ 40 ∨ y < 0 ∨ y ≥ 2) :
    LCD1602_I2C_MoveCursor env x y s = (HAL_ERROR, s) ∧
      (LCD1602_I2C_MoveCursor env x y s).2.g_cursorPos = s.g_cursorPos ∧
      (LCD1602_I2C_MoveCursor env x y s).2.g_displayOffset = s.g_displayOffset ∧
      (LCD1602_I2C_MoveCursor env x y s).2.log = s.log := by
  have hm : LCD1602_I2C_MoveCursor env x y s = (HAL_ERROR, s) := by
    simp only [LCD1602_I2C_MoveCursor, h, if_true]
  rw [hm]
  exact ⟨rfl, rfl, rfl, rfl⟩

/-- Witness of C4: `x = 40`, `y = 0` from the initial state. -/
theorem C4_MoveCursor_invalid_witness :
    ((40 : Int) < 0 ∨ (40 : Int) ≥ 40 ∨ (0 : Int) < 0 ∨ (0 : Int) ≥ 2) ∧
    (LCD1602_I2C_MoveCursor envAllOK 40 0 Driver.initial = (HAL_ERROR, Driver.initial) ∧
      (LCD1602_I2C_MoveCursor envAllOK 40 0 Driver.initial).2.g_cursorPos =
        Driver.initial.g_cursorPos ∧
      (LCD1602_I2C_MoveCursor envAllOK 40 0 Driver.initial).2.g_displayOffset =
        Driver.initial.g_displayOffset ∧
      (LCD1602_I2C_MoveCursor envAllOK 40 0 Driver.initial).2.log = Driver.initial.log) :=
  ⟨by decide, C4_MoveCursor_invalid envAllOK Driver.initial 40 0 (by decide)⟩

/-- C5: for `x` in 0..39 and `y` in {0, 1}, whatever the prior state and
whatever the transport answers, after `LCD1602_I2C_MoveCursor(x, y)` the tracked
cursor position is column `x`, row `y`. -/
theorem C5_MoveCursor_tracks (env : Env) (s : Driver) (x y : Int)
    (hx0 : 0 ≤ x) (hx : x < 40) (hy : y = 0 ∨ y = 1) :
    ((LCD1602_I2C_MoveCursor env x y s).2.g_cursorPos.1 : Int) = x ∧
      ((LCD1602_I2C_MoveCursor env x y s).2.g_cursorPos.2 : Int) = y := by
  have hnot : ¬ (x < 0 ∨ x ≥ 40 ∨ y < 0 ∨ y ≥ 2) := by omega
  obtain ⟨n, rfl⟩ := Int.eq_ofNat_of_zero_le hx0
  have hpos : (LCD1602_I2C_MoveCursor env n y s).2.g_cursorPos = (u8i n, u8i y) := by
    simp only [LCD1602_I2C_MoveCursor, hnot, if_false, LCD1602_I2C_SetDDRAMAddress]
    exact (SendToLCD_frame env _ _ _).2
  rw [hpos, u8i_natCast n (by omega)]
  rcases hy with hy | hy <;> subst hy <;> exact ⟨rfl, rfl⟩

/-- Witness of C5: `x = 39`, `y = 1` from the initial state, over a transport
whose probe fails. -/
theorem C5_MoveCursor_tracks_witness :
    (0 : Int) ≤ 39 ∧ (39 : Int) < 40 ∧ ((1 : Int) = 0 ∨ (1 : Int) = 1) ∧
    (((LCD1602_I2C_MoveCursor (envFailAt 1 HAL_ERROR) 39 1 Driver.initial).2.g_cursorPos.1 : Int)
        = 39 ∧
      ((LCD1602_I2C_MoveCursor (envFailAt 1 HAL_ERROR) 39 1 Driver.initial).2.g_cursorPos.2 : Int)
        = 1) :=
  ⟨by decide, by decide, by decide,
    C5_MoveCursor_tracks (envFailAt 1 HAL_ERROR) Driver.initial 39 1
      (by decide) (by decide) (by decide)⟩

/-! ## Shifts -/

theorem ShiftDisplay_right_offset (env : Env) (s : Driver) :
    (LCD1602_I2C_ShiftDisplay env 1 s).2.g_displayOffset =
      if s.g_displayOffset + 1 ≥ 40 then 0 else u8 (s.g_displayOffset + 1) := by
  simp only [LCD1602_I2C_ShiftDisplay, LCD1602_I2C_CursorDisplayShift]
  rw [if_neg (by decide)]
  exact (SendToLCD_frame env _ _ _).1

theorem ShiftDisplay_left_offset (env : Env) (s : Driver) :
    (LCD1602_I2C_ShiftDisplay env 0 s).2.g_displayOffset =
      if (s.g_displayOffset : Int) - 1 < 0 then 39
      else u8i ((s.g_displayOffset : Int) - 1) := by
  simp only [LCD1602_I2C_ShiftDisplay, LCD1602_I2C_CursorDisplayShift]
  rw [if_neg (by decide)]
  exact (SendToLCD_frame env _ _ _).1

theorem ShiftDisplay_right_mod (env : Env) (s : Driver) (ho : s.g_displayOffset < 40) :
    (LCD1602_I2C_ShiftDisplay env 1 s).2.g_displayOffset = (s.g_displayOffset + 1) % 40 := by
  rw [ShiftDisplay_right_offset]
  unfold u8
  split_ifs <;> omega

theorem ShiftDisplay_left_mod (env : Env) (s : Driver) (ho : s.g_displayOffset < 40) :
    (LCD1602_I2C_ShiftDisplay env 0 s).2.g_displayOffset = (s.g_displayOffset + 39) % 40 := by
  rw [ShiftDisplay_left_offset]
  unfold u8i
  split_ifs <;> omega

theorem repeat_ShiftDisplay_right (env : Env) (n : Nat) (s : Driver)
    (ho : s.g_displayOffset < 40) :
    (repeatOp (LCD1602_I2C_ShiftDisplay env 1) n s).g_displayOffset =
      (s.g_displayOffset + n) % 40 := by
  induction n generalizing s with
  | zero => simp [repeatOp]; omega
  | succ n ih =>
    have h1 := ShiftDisplay_right_mod env s ho
    rw [repeatOp, ih _ (by omega), h1]
    omega

theorem repeat_ShiftDisplay_left (env : Env) (n : Nat) (s : Driver)
    (ho : s.g_displayOffset < 40) :
    (repeatOp (LCD1602_I2C_ShiftDisplay env 0) n s).g_displayOffset =
      (s.g_displayOffset + 39 * n) % 40 := by
  induction n generalizing s with
  | zero => simp [repeatOp]; omega
  | succ n ih =>
    have h1 := ShiftDisplay_left_mod env s ho
    rw [repeatOp, ih _ (by omega), h1]
    omega

/-- C6: with the display offset `o` in 0..39 and whatever the transport answers,
one `LCD1602_I2C_ShiftDisplay(1)` leaves the offset at `(o + 1) mod 40`, one
`LCD1602_I2C_ShiftDisplay(0)` leaves it at `(o + 39) mod 40`, and 40 consecutive
right shifts, as well as 40 consecutive left shifts, bring it back to `o`. -/
theorem C6_ShiftDisplay_offset_mod40 (env : Env) (s : Driver) (ho : s.g_displayOffset < 40) :
    (LCD1602_I2C_ShiftDisplay env 1 s).2.g_displayOffset = (s.g_displayOffset + 1) % 40 ∧
      (LCD1602_I2C_ShiftDisplay env 0 s).2.g_displayOffset = (s.g_displayOffset + 39) % 40 ∧
      (repeatOp (LCD1602_I2C_ShiftDisplay env 1) 40 s).g_displayOffset = s.g_displayOffset ∧
      (repeatOp (LCD1602_I2C_ShiftDisplay env 0) 40 s).g_displayOffset = s.g_displayOffset := by
  refine ⟨ShiftDisplay_right_mod env s ho, ShiftDisplay_left_mod env s ho, ?_, ?_⟩
  · rw [repeat_ShiftDisplay_right env 40 s ho]
    omega
  · rw [repeat_ShiftDisplay_left env 40 s ho]
    omega

/-- Witness of C6: offset 39 over a transport that always succeeds. -/
theorem C6_ShiftDisplay_offset_mod40_witness :
    (39 : Nat) < 40 ∧
    ((LCD1602_I2C_ShiftDisplay envAllOK 1
        { Driver.initial with g_displayOffset := 39 }).2.g_displayOffset = (39 + 1) % 40 ∧
      (LCD1602_I2C_ShiftDisplay envAllOK 0
        { Driver.initial with g_displayOffset := 39 }).2.g_displayOffset = (39 + 39) % 40 ∧
      (repeatOp (LCD1602_I2C_ShiftDisplay envAllOK 1) 40
        { Driver.initial with g_displayOffset := 39 }).g_displayOffset = 39 ∧
      (repeatOp (LCD1602_I2C_ShiftDisplay envAllOK 0) 40
        { Driver.initial with g_displayOffset := 39 }).g_displayOffset = 39) :=
  ⟨by decide, C6_ShiftDisplay_offset_mod40 envAllOK
    { Driver.initial with g_displayOffset := 39 } (by decide)⟩

theorem CursorDisplayShift_cursor (env : Env) (dir : Nat) (s : Driver) :
    (LCD1602_I2C_CursorDisplayShift env 0 dir s).2.g_cursorPos =
      (LCD1602_I2C_CursorDisplayShift_update 0 dir s).2.g_cursorPos := by
  simp only [LCD1602_I2C_CursorDisplayShift]
  exact (SendToLCD_frame env _ _ _).2

/-- C7: with the tracked cursor at `(c, r)`, `c` in 0..39 and `r` in {0, 1}, and
whatever the transport answers, the cursor-mode shift
`LCD1602_I2C_CursorDisplayShift(0, 1)` (right) leaves it at `(c + 1, r)` when
`c < 39` and at `(0, 1 - r)` when `c = 39`; `LCD1602_I2C_CursorDisplayShift(0, 0)`
(left) leaves it at `(c - 1, r)` when `c > 0` and at `(39, 1 - r)` when `c = 0`. -/
theorem C7_cursor_shift_rollover (env : Env) (s : Driver)
    (hc : s.g_cursorPos.1 < 40) (hr : s.g_cursorPos.2 < 2) :
    (LCD1602_I2C_CursorDisplayShift env 0 1 s).2.g_cursorPos =
        (if s.g_cursorPos.1 < 39 then (s.g_cursorPos.1 + 1, s.g_cursorPos.2)
         else (0, 1 - s.g_cursorPos.2)) ∧
      (LCD1602_I2C_CursorDisplayShift env 0 0 s).2.g_cursorPos =
        (if s.g_cursorPos.1 > 0 then (s.g_cursorPos.1 - 1, s.g_cursorPos.2)
         else (39, 1 - s.g_cursorPos.2)) := by
  obtain ⟨off, ⟨c, r⟩, log⟩ := s
  simp only at hc hr
  constructor
  · rw [CursorDisplayShift_cursor]
    simp only [LCD1602_I2C_CursorDisplayShift_update, u8]
    rw [if_neg (by decide), if_pos (by decide)]
    split_ifs <;> simp only [Prod.mk.injEq, true_and, and_true] <;> omega
  · rw [CursorDisplayShift_cursor]
    simp only [LCD1602_I2C_CursorDisplayShift_update, u8i]
    rw [if_neg (by decide), if_neg (by decide)]
    split_ifs <;> simp only [Prod.mk.injEq, true_and, and_true] <;> omega

/-- Witness of C7: the cursor at (39, 0) goes to (0, 1) when shifted right, and
the cursor at (0, 0) goes to (39, 1) when shifted left (second component of the
statement at (39, 0): (38, 0)). -/
theorem C7_cursor_shift_rollover_witness :
    ((39 : Nat) < 40 ∧ (0 : Nat) < 2 ∧
      (LCD1602_I2C_CursorDisplayShift envAllOK 0 1
        { Driver.initial with g_cursorPos := (39, 0) }).2.g_cursorPos = (0, 1)) ∧
    ((0 : Nat) < 40 ∧ (0 : Nat) < 2 ∧
      (LCD1602_I2C_CursorDisplayShift envAllOK 0 0
        { Driver.initial with g_cursorPos := (0, 0) }).2.g_cursorPos = (39, 1)) :=
  ⟨⟨by decide, by decide,
      (C7_cursor_shift_rollover envAllOK { Driver.initial with g_cursorPos := (39, 0) }
        (by decide) (by decide)).1⟩,
    ⟨by decide, by decide,
      (C7_cursor_shift_rollover envAllOK { Driver.initial with g_cursorPos := (0, 0) }
        (by decide) (by decide)).2⟩⟩

/-! ## Strings -/

set_option maxRecDepth 100000 in
theorem Write_Data_cmd_eq : ∀ c, c < 256 → LCD1602_I2C_Write_Data_cmd c = 0x200 ||| c := by
  decide

theorem Write_Data_of_always (env : Env) (hbus : ∀ h, env.status h = HAL_OK) (s : Driver)
    (c : Nat) (hc : c < 256) :
    LCD1602_I2C_Write_Data env c s =
      (HAL_OK, { s with log := s.log ++
        BusEvent.probe :: (wireBytes (0x200 ||| c) 1).map BusEvent.write }) := by
  unfold LCD1602_I2C_Write_Data
  rw [Write_Data_cmd_eq c hc]
  exact SendToLCD_of_answersOK env s _ 1 (answersOK_of_always env hbus _ _)

theorem ShowString_loop_of_always (env : Env) (hbus : ∀ h, env.status h = HAL_OK)
    (str : List Nat) (hstr : ∀ c ∈ str, 0 < c ∧ c < 256) (s : Driver) :
    (LCD1602_I2C_ShowString_loop env str HAL_OK s).1 = HAL_OK ∧
      busWrites (LCD1602_I2C_ShowString_loop env str HAL_OK s).2.log =
        busWrites s.log ++ stringWireBytes str := by
  induction str generalizing s with
  | nil => simp [LCD1602_I2C_ShowString_loop, stringWireBytes]
  | cons c str ih =>
    have hc := hstr c (List.mem_cons_self c str)
    have hu : u8 c = c := Nat.mod_eq_of_lt hc.2
    have hrest : ∀ d ∈ str, 0 < d ∧ d < 256 := fun d hd => hstr d (List.mem_cons_of_mem c hd)
    have hne : ¬ c = 0 := by omega
    simp only [LCD1602_I2C_ShowString_loop, hu, hne, if_false,
      Write_Data_of_always env hbus s c hc.2, ne_eq, not_true_eq_false]
    obtain ⟨h1, h2⟩ := ih hrest
      { s with log := s.log ++ BusEvent.probe :: (wireBytes (0x200 ||| c) 1).map BusEvent.write }
    refine ⟨h1, ?_⟩
    rw [h2]
    simp only [busWrites_append, busWrites, busWrites_map_write, stringWireBytes,
      wireBytes, List.map, List.append_assoc]

theorem stringWireBytes_length (str : List Nat) :
    (stringWireBytes str).length = 4 * str.length := by
  induction str with
  | nil => rfl
  | cons c str ih => simp [stringWireBytes, wireBytes, ih]; omega

/-- C8: for every string (a list of non-zero bytes, ended by the terminating
zero), when the transport always succeeds, `LCD1602_I2C_ShowString` returns
`HAL_OK` and the bus writes it issues are, in character order, the four writes
of the write-data word `0x200 | c` with the backlight on for each character `c`:
`4 * length` writes in all.  For "AB" they are `0x4D, 0x49, 0x1D, 0x19` then
`0x4D, 0x49, 0x2D, 0x29`. -/
theorem C8_ShowString_writes (env : Env) (s : Driver) (str : List Nat)
    (hbus : ∀ h, env.status h = HAL_OK) (hstr : ∀ c ∈ str, 0 < c ∧ c < 256) :
    (LCD1602_I2C_ShowString env str s).1 = HAL_OK ∧
      busWrites (LCD1602_I2C_ShowString env str s).2.log =
        busWrites s.log ++ stringWireBytes str ∧
      (stringWireBytes str).length = 4 * str.length ∧
      stringWireBytes [0x41, 0x42] = [0x4D, 0x49, 0x1D, 0x19, 0x4D, 0x49, 0x2D, 0x29] := by
  obtain ⟨h1, h2⟩ := ShowString_loop_of_always env hbus str hstr s
  exact ⟨h1, h2, stringWireBytes_length str, by decide⟩

/-- Witness of C8: the string "AB" from the initial state, over a transport that
always succeeds. -/
theorem C8_ShowString_writes_witness :
    (∀ h, envAllOK.status h = HAL_OK) ∧ (∀ c ∈ [0x41, 0x42], 0 < c ∧ c < 256) ∧
    ((LCD1602_I2C_ShowString envAllOK [0x41, 0x42] Driver.initial).1 = HAL_OK ∧
      busWrites (LCD1602_I2C_ShowString envAllOK [0x41, 0x42] Driver.initial).2.log =
        busWrites Driver.initial.log ++ stringWireBytes [0x41, 0x42] ∧
      (stringWireBytes [0x41, 0x42]).length = 4 * [0x41, 0x42].length ∧
      stringWireBytes [0x41, 0x42] = [0x4D, 0x49, 0x1D, 0x19, 0x4D, 0x49, 0x2D, 0x29]) :=
  ⟨fun _ => rfl, by decide,
    C8_ShowString_writes envAllOK Driver.initial [0x41, 0x42] (fun _ => rfl) (by decide)⟩

/-! ## Parameter check of the display shift -/

/-- C9: for every flag other than 0 and 1, `LCD1602_I2C_ShiftDisplay` returns
`HAL_ERROR` and the driver state is untouched: no transaction is added to the
bus history, and the display offset and the tracked cursor are as before. -/
theorem C9_ShiftDisplay_invalid (env : Env) (s : Driver) (flag : Int)
    (h0 : flag ≠ 0) (h1 : flag ≠ 1) :
    LCD1602_I2C_ShiftDisplay env flag s = (HAL_ERROR, s) ∧
      (LCD1602_I2C_ShiftDisplay env flag s).2.log = s.log ∧
      (LCD1602_I2C_ShiftDisplay env flag s).2.g_displayOffset = s.g_displayOffset ∧
      (LCD1602_I2C_ShiftDisplay env flag s).2.g_cursorPos = s.g_cursorPos := by
  have hm : LCD1602_I2C_ShiftDisplay env flag s = (HAL_ERROR, s) := by
    simp [LCD1602_I2C_ShiftDisplay, h0, h1]
  rw [hm]
  exact ⟨rfl, rfl, rfl, rfl⟩

/-- Witness of C9: the flag 2 from the initial state. -/
theorem C9_ShiftDisplay_invalid_witness :
    (2 : Int) ≠ 0 ∧ (2 : Int) ≠ 1 ∧
    (LCD1602_I2C_ShiftDisplay envAllOK 2 Driver.initial = (HAL_ERROR, Driver.initial) ∧
      (LCD1602_I2C_ShiftDisplay envAllOK 2 Driver.initial).2.log = Driver.initial.log ∧
      (LCD1602_I2C_ShiftDisplay envAllOK 2 Driver.initial).2.g_displayOffset =
        Driver.initial.g_displayOffset ∧
      (LCD1602_I2C_ShiftDisplay envAllOK 2 Driver.initial).2.g_cursorPos =
        Driver.initial.g_cursorPos) :=
  ⟨by decide, by decide,
    C9_ShiftDisplay_invalid envAllOK Driver.initial 2 (by decide) (by decide)⟩

/-! ## Initialization -/

/-- C10, evaluation of the code where it departs from the claim: over a
transport that answers `HAL_ERROR` to the first transaction (the first write of
the first legacy function-set pulse) and `HAL_OK` afterwards,
`LCD1602_I2C_Init` does not stop: it returns `HAL_OK` and 23 further writes
follow the failed one. -/
theorem C10_Init_ignores_legacy_pulse_failure :
    (envFailAt 1 HAL_ERROR).status (Driver.initial.log ++
        [BusEvent.write (u8 ((envFailAt 1 HAL_ERROR).memByte 0b00111100))]) = HAL_ERROR ∧
      (LCD1602_I2C_Init (envFailAt 1 HAL_ERROR) Driver.initial).1 = HAL_OK ∧
      (busWrites (LCD1602_I2C_Init (envFailAt 1 HAL_ERROR) Driver.initial).2.log).length = 24 := by
  decide

/-! ## Initialization sequence and command words -/

/-- C11, evaluation of the code where it departs from the claim: over a
transport that always succeeds and a memory whose bytes at the addresses `0x3C`
and `0x38` are `0x01`, `LCD1602_I2C_Init` returns `HAL_OK` after 24 writes, but
the six writes of the legacy pulses carry the memory byte `0x01` (enable clear
in all six), not the pulse bytes `0x3C`, `0x38`; the remaining 18 writes are the
4-bit-mode switch `0x2C, 0x28` and the four instructions `0x28`, `0x0E`, `0x01`,
`0x07` in the wire format. -/
theorem C11_Init_legacy_pulses_send_memory :
    (LCD1602_I2C_Init (envWith (fun _ => 0x01) 0) Driver.initial).1 = HAL_OK ∧
      busWrites (LCD1602_I2C_Init (envWith (fun _ => 0x01) 0) Driver.initial).2.log =
        [0x01, 0x01, 0x01, 0x01, 0x01, 0x01, 0x2C, 0x28] ++
          wireBytes 0x28 1 ++ wireBytes 0x0E 1 ++ wireBytes 0x01 1 ++ wireBytes 0x07 1 ∧
      (busWrites (LCD1602_I2C_Init (envWith (fun _ => 0x01) 0) Driver.initial).2.log).length
        = 24 ∧
      (0x01 : Nat).testBit EN_INDEX_PIN = false := by
  decide

theorem and_low_bits (a k : Nat) : a &&& (2 ^ k - 1) < 2 ^ k := by
  rw [Nat.and_pow_two_sub_one_eq_mod]
  exact Nat.mod_lt _ (Nat.two_pow_pos k)

theorem setCGRAM_small : ∀ v, v < 64 →
    u8 (u8 0b0001000000 ||| v) = 0x40 ||| v ∧ (0x40 ||| v) &&& 0xC0 = 0x40 := by
  decide

set_option maxRecDepth 100000 in
theorem setDDRAM_small : ∀ v, v < 128 →
    u8 (u8 0b0010000000 ||| v) = 0x80 ||| v ∧ (0x80 ||| v) &&& 0x80 = 0x80 := by
  decide

theorem EntryModeSet_cmd_eq (increment shift : Nat) :
    LCD1602_I2C_EntryModeSet_cmd increment shift =
      0x04 ||| (if increment ≠ 0 then 0x02 else 0) ||| (if shift ≠ 0 then 0x01 else 0) := by
  by_cases hi : increment = 0 <;> by_cases hs : shift = 0 <;>
    simp [LCD1602_I2C_EntryModeSet_cmd, hi, hs] <;> decide

theorem DisplayControl_cmd_eq (displayOn cursorOn blinkOn : Nat) :
    LCD1602_I2C_DisplayControl_cmd displayOn cursorOn blinkOn =
      0x08 ||| (if displayOn ≠ 0 then 0x04 else 0) ||| (if cursorOn ≠ 0 then 0x02 else 0) |||
        (if blinkOn ≠ 0 then 0x01 else 0) := by
  by_cases hd : displayOn = 0 <;> by_cases hc : cursorOn = 0 <;> by_cases hb : blinkOn = 0 <;>
    simp [LCD1602_I2C_DisplayControl_cmd, hd, hc, hb] <;> decide

theorem CursorDisplayShift_cmd_eq (shiftDisplay shiftRight : Nat) (s : Driver) :
    (LCD1602_I2C_CursorDisplayShift_update shiftDisplay shiftRight s).1 =
      0x10 ||| (if shiftDisplay ≠ 0 then 0x08 else 0) |||
        (if shiftRight ≠ 0 then 0x04 else 0) := by
  by_cases hd : shiftDisplay = 0 <;> by_cases hr : shiftRight = 0 <;>
    simp only [LCD1602_I2C_CursorDisplayShift_update, hd, hr, ne_eq, not_true_eq_false,
      not_false_eq_true, if_true, if_false] <;>
    (try split_ifs) <;> rfl

theorem FunctionSet_cmd_eq (numLines fontType : Nat) :
    LCD1602_I2C_FunctionSet_cmd numLines fontType =
      0x20 ||| (if numLines ≠ 0 then 0x08 else 0) ||| (if fontType ≠ 0 then 0x04 else 0) := by
  by_cases hn : numLines = 0 <;> by_cases hf : fontType = 0 <;>
    simp [LCD1602_I2C_FunctionSet_cmd, hn, hf] <;> decide

theorem SetCGRAMAddress_cmd_eq (address : Nat) :
    LCD1602_I2C_SetCGRAMAddress_cmd address = 0x40 ||| (address &&& 0x3F) ∧
      LCD1602_I2C_SetCGRAMAddress_cmd address &&& 0xC0 = 0x40 := by
  have h := setCGRAM_small (address &&& 0x3F) (and_low_bits address 6)
  simp only [LCD1602_I2C_SetCGRAMAddress_cmd]
  rw [h.1]
  exact ⟨rfl, h.2⟩

theorem SetDDRAMAddress_cmd_eq (address : Nat) :
    LCD1602_I2C_SetDDRAMAddress_cmd address = 0x80 ||| (address &&& 0x7F) ∧
      LCD1602_I2C_SetDDRAMAddress_cmd address &&& 0x80 = 0x80 := by
  have h := setDDRAM_small (address &&& 0x7F) (and_low_bits address 7)
  simp only [LCD1602_I2C_SetDDRAMAddress_cmd]
  rw [h.1]
  exact ⟨rfl, h.2⟩

theorem opcode_bounds : ∀ v, v < 128 → 0x40 ||| (v % 64) < 256 ∧ 0x80 ||| v < 256 := by
  decide

theorem sendsPayload_of_cmd (env : Env) (s : Driver) (cmd payload : Nat)
    (hcmd : cmd = payload) (hlt : payload < 256) :
    sendsPayload env payload s (LCD1602_I2C_SendToLCD env (load16 env s cmd) 1 s) := by
  subst hcmd
  exact ⟨rfl, load16_payload env s cmd hlt⟩

/-- C12: for all parameter values each command encoder hands to the transmitter
the word loaded from the command byte of the opcode table, and the low eight
bits of that word are that byte: Clear `0x01`; Return home `0x02`; Entry mode
`0x04 | I/D<<1 | S`; Display control `0x08 | D<<2 | C<<1 | B`; Cursor/display
shift `0x10 | S/C<<3 | R/L<<2`; Function set `0x20 | N<<3 | F<<2`; Set CGRAM
address `0x40 | (address & 0x3F)`; Set DDRAM address `0x80 | (address & 0x7F)`,
any non-zero flag counting as set.  These are the values of the byte `cmd` each
encoder builds, and the opcode bits of each byte are those of the table
whatever the flags and addresses are. -/
theorem C12_encoder_opcodes (env : Env) (increment shift displayOn cursorOn blinkOn
    shiftDisplay shiftRight numLines fontType address : Nat) (s : Driver) :
    (sendsPayload env 0x01 s (LCD1602_I2C_Clear_Display env s) ∧
      sendsPayload env 0x02 s (LCD1602_I2C_ReturnHome env s) ∧
      sendsPayload env
        (0x04 ||| (if increment ≠ 0 then 0x02 else 0) ||| (if shift ≠ 0 then 0x01 else 0)) s
        (LCD1602_I2C_EntryModeSet env increment shift s) ∧
      sendsPayload env
        (0x08 ||| (if displayOn ≠ 0 then 0x04 else 0) |||
          (if cursorOn ≠ 0 then 0x02 else 0) ||| (if blinkOn ≠ 0 then 0x01 else 0)) s
        (LCD1602_I2C_DisplayControl env displayOn cursorOn blinkOn s) ∧
      sendsPayload env
        (0x10 ||| (if shiftDisplay ≠ 0 then 0x08 else 0) |||
          (if shiftRight ≠ 0 then 0x04 else 0))
        (LCD1602_I2C_CursorDisplayShift_update shiftDisplay shiftRight s).2
        (LCD1602_I2C_CursorDisplayShift env shiftDisplay shiftRight s) ∧
      sendsPayload env
        (0x20 ||| (if numLines ≠ 0 then 0x08 else 0) ||| (if fontType ≠ 0 then 0x04 else 0)) s
        (LCD1602_I2C_FunctionSet env numLines fontType s) ∧
      sendsPayload env (0x40 ||| (address &&& 0x3F)) s
        (LCD1602_I2C_SetCGRAMAddress env address s) ∧
      sendsPayload env (0x80 ||| (address &&& 0x7F)) s
        (LCD1602_I2C_SetDDRAMAddress env address s)) ∧
    (LCD1602_I2C_Clear_Display_cmd = 0x01 ∧
      LCD1602_I2C_ReturnHome_cmd = 0x02 ∧
      LCD1602_I2C_EntryModeSet_cmd increment shift =
        0x04 ||| (if increment ≠ 0 then 0x02 else 0) ||| (if shift ≠ 0 then 0x01 else 0) ∧
      LCD1602_I2C_DisplayControl_cmd displayOn cursorOn blinkOn =
        0x08 ||| (if displayOn ≠ 0 then 0x04 else 0) |||
          (if cursorOn ≠ 0 then 0x02 else 0) ||| (if blinkOn ≠ 0 then 0x01 else 0) ∧
      (LCD1602_I2C_CursorDisplayShift_update shiftDisplay shiftRight s).1 =
        0x10 ||| (if shiftDisplay ≠ 0 then 0x08 else 0) |||
          (if shiftRight ≠ 0 then 0x04 else 0) ∧
      LCD1602_I2C_FunctionSet_cmd numLines fontType =
        0x20 ||| (if numLines ≠ 0 then 0x08 else 0) ||| (if fontType ≠ 0 then 0x04 else 0) ∧
      LCD1602_I2C_SetCGRAMAddress_cmd address = 0x40 ||| (address &&& 0x3F) ∧
      LCD1602_I2C_SetDDRAMAddress_cmd address = 0x80 ||| (address &&& 0x7F)) ∧
    (LCD1602_I2C_EntryModeSet_cmd increment shift &&& 0xFC = 0x04 ∧
      LCD1602_I2C_DisplayControl_cmd displayOn cursorOn blinkOn &&& 0xF8 = 0x08 ∧
      (LCD1602_I2C_CursorDisplayShift_update shiftDisplay shiftRight s).1 &&& 0xF3 = 0x10 ∧
      LCD1602_I2C_FunctionSet_cmd numLines fontType &&& 0xF3 = 0x20 ∧
      LCD1602_I2C_SetCGRAMAddress_cmd address &&& 0xC0 = 0x40 ∧
      LCD1602_I2C_SetDDRAMAddress_cmd address &&& 0x80 = 0x80) := by
  have hcg : 0x40 ||| (address &&& 0x3F) < 256 := by
    have h := (opcode_bounds (address % 64) (by omega)).1
    rw [Nat.mod_mod] at h
    have hm : address &&& 0x3F = address % 64 := Nat.and_pow_two_sub_one_eq_mod address 6
    rw [hm]
    exact h
  have hdd : 0x80 ||| (address &&& 0x7F) < 256 := by
    have hm : address &&& 0x7F = address % 128 := Nat.and_pow_two_sub_one_eq_mod address 7
    rw [hm]
    exact (opcode_bounds (address % 128) (by omega)).2
  refine ⟨⟨?_, ?_, ?_, ?_, ?_, ?_, ?_, ?_⟩,
    ⟨by decide, by decide, EntryModeSet_cmd_eq _ _, DisplayControl_cmd_eq _ _ _,
    CursorDisplayShift_cmd_eq _ _ _, FunctionSet_cmd_eq _ _, (SetCGRAMAddress_cmd_eq _).1,
    (SetDDRAMAddress_cmd_eq _).1⟩, ?_, ?_, ?_, ?_, (SetCGRAMAddress_cmd_eq _).2,
    (SetDDRAMAddress_cmd_eq _).2⟩
  · exact sendsPayload_of_cmd env s _ _ (by decide) (by decide)
  · exact sendsPayload_of_cmd env s _ _ (by decide) (by decide)
  · exact sendsPayload_of_cmd env s _ _ (EntryModeSet_cmd_eq _ _) (by split_ifs <;> decide)
  · exact sendsPayload_of_cmd env s _ _ (DisplayControl_cmd_eq _ _ _)
      (by split_ifs <;> decide)
  · exact sendsPayload_of_cmd env _ _ _ (CursorDisplayShift_cmd_eq _ _ s)
      (by split_ifs <;> decide)
  · exact sendsPayload_of_cmd env s _ _ (FunctionSet_cmd_eq _ _) (by split_ifs <;> decide)
  · exact sendsPayload_of_cmd env s _ _ (SetCGRAMAddress_cmd_eq _).1 hcg
  · exact sendsPayload_of_cmd env s _ _ (SetDDRAMAddress_cmd_eq _).1 hdd
  · rw [EntryModeSet_cmd_eq]
    split_ifs <;> decide
  · rw [DisplayControl_cmd_eq]
    split_ifs <;> decide
  · rw [CursorDisplayShift_cmd_eq]
    split_ifs <;> decide
  · rw [FunctionSet_cmd_eq]
    split_ifs <;> decide

set_option maxRecDepth 100000 in
theorem writeData_control_small : ∀ v, v < 256 →
    (wireBytes ((0b1000000000 % 2 ^ 16 ||| v) % 2 ^ 16) 1).map (fun b => b.testBit 0) =
        [true, true, true, true] ∧
      (wireBytes ((0b1000000000 % 2 ^ 16 ||| v) % 2 ^ 16) 1).map (fun b => b.testBit 1) =
        [false, false, false, false] ∧
      (0b1000000000 % 2 ^ 16 ||| v) % 2 ^ 16 = 0x200 ||| v := by
  decide

/-- The write-data word of any byte is `0x200 | (data & 0xFF)`, and its four
wire bytes have bit0 set and bit1 clear. -/
theorem Write_Data_control (data : Nat) :
    LCD1602_I2C_Write_Data_cmd data = 0x200 ||| (data &&& 0xFF) ∧
      (wireBytes (LCD1602_I2C_Write_Data_cmd data) 1).map (fun b => b.testBit 0) =
        [true, true, true, true] ∧
      (wireBytes (LCD1602_I2C_Write_Data_cmd data) 1).map (fun b => b.testBit 1) =
        [false, false, false, false] := by
  have h := writeData_control_small (data &&& 0xFF) (and_low_bits data 8)
  exact ⟨h.2.2, h.1, h.2.1⟩

/-- C13, evaluation of the code where it departs from the claim: the encoders
keep `cmd` in an 8-bit local and the transmitter loads 16 bits through its
address, so bits 8 and 9 of the instruction word come from the byte that
follows `cmd` in memory.  When that byte is `0x02`, `LCD1602_I2C_Clear_Display`
hands the word `0x201` to the transmitter and the four bytes written have bit0
(register-select) set.  For write-data, whose `cmd` is a 16-bit local, the four
bytes of `0x200 | 0x41` have bit0 set and bit1 clear. -/
theorem C13_command_word_takes_adjacent_byte :
    load16 (envWith (fun _ => 0) 0x02) Driver.initial LCD1602_I2C_Clear_Display_cmd = 0x201 ∧
      busWrites (LCD1602_I2C_Clear_Display (envWith (fun _ => 0) 0x02) Driver.initial).2.log =
        [0x0D, 0x09, 0x1D, 0x19] ∧
      [0x0D, 0x09, 0x1D, 0x19].map (fun b => Nat.testBit b RS_INDEX_PIN) =
        [true, true, true, true] ∧
      (wireBytes (LCD1602_I2C_Write_Data_cmd 0x41) 1).map (fun b => Nat.testBit b RS_INDEX_PIN) =
        [true, true, true, true] ∧
      (wireBytes (LCD1602_I2C_Write_Data_cmd 0x41) 1).map (fun b => Nat.testBit b RW_INDEX_PIN) =
        [false, false, false, false] := by
  decide

/-- The four values of `data` depend on the low 10 bits of the word only. -/
theorem codeBytes_of_low_bits (w₁ w₂ b : Nat) (h : w₁ &&& 0x3FF = w₂ &&& 0x3FF) :
    codeBytes w₁ b = codeBytes w₂ b := by
  have h₁ : w₁ &&& 0x3FF = w₁ % 1024 := Nat.and_pow_two_sub_one_eq_mod w₁ 10
  have h₂ : w₂ &&& 0x3FF = w₂ % 1024 := Nat.and_pow_two_sub_one_eq_mod w₂ 10
  rw [codeBytes_mod w₁, codeBytes_mod w₂, ← h₁, ← h₂, h]

/-- C14: for every two words that agree on their low 10 bits, every backlight
flag, every state and every behaviour of the transport,
`LCD1602_I2C_SendToLCD` returns the same status and leaves the same bus
history (the same bytes, in the same order) for both: bits 10..15 are ignored. -/
theorem C14_SendToLCD_ignores_upper_bits (env : Env) (s : Driver) (w₁ w₂ b : Nat)
    (h : w₁ &&& 0x3FF = w₂ &&& 0x3FF) :
    LCD1602_I2C_SendToLCD env w₁ b s = LCD1602_I2C_SendToLCD env w₂ b s := by
  have hc := codeBytes_of_low_bits w₁ w₂ b h
  simp only [codeBytes, List.cons.injEq, and_true] at hc
  obtain ⟨h1, h2, h3, h4⟩ := hc
  simp only [LCD1602_I2C_SendToLCD, h1, h2, h3, h4]

/-- Witness of C14: the words `0x0241` and `0xFE41`, over a transport whose third
transaction fails. -/
theorem C14_SendToLCD_ignores_upper_bits_witness :
    (0x0241 &&& 0x3FF = 0xFE41 &&& 0x3FF) ∧
      LCD1602_I2C_SendToLCD (envFailAt 3 HAL_BUSY) 0x0241 1 Driver.initial =
        LCD1602_I2C_SendToLCD (envFailAt 3 HAL_BUSY) 0xFE41 1 Driver.initial :=
  ⟨by decide, C14_SendToLCD_ignores_upper_bits (envFailAt 3 HAL_BUSY) Driver.initial
    0x0241 0xFE41 1 (by decide)⟩

/-- When the two low bits of the byte that follows `cmd` in memory are clear,
the word loaded for a command byte has register-select and read/write clear:
the control bits of its wire bytes are the backlight bit alone. -/
theorem command_control_of_adjacent (env : Env) (s : Driver) (cmd : Nat)
    (ha : env.adjacentByte s.log % 4 = 0) : controlBits (load16 env s cmd) 1 = 8 := by
  have hm : load16 env s cmd % 1024 = cmd % 256 := by
    unfold load16 u8
    omega
  have hlt9 : cmd % 256 < 2 ^ 9 := by omega
  have hlt8 : cmd % 256 < 2 ^ 8 := by omega
  have h9 : (load16 env s cmd).testBit 9 = false := by
    have h := Nat.testBit_mod_two_pow (load16 env s cmd) 10 9
    rw [show (2 : Nat) ^ 10 = 1024 from rfl, hm, Nat.testBit_lt_two_pow hlt9] at h
    simpa using h.symm
  have h8 : (load16 env s cmd).testBit 8 = false := by
    have h := Nat.testBit_mod_two_pow (load16 env s cmd) 10 8
    rw [show (2 : Nat) ^ 10 = 1024 from rfl, hm, Nat.testBit_lt_two_pow hlt8] at h
    simpa using h.symm
  simp [controlBits, h9, h8]

/-! ## Tracker updates, error propagation and frame properties -/

theorem SendToLCD_probe_fails (env : Env) (s : Driver) (w b : Nat) (e : HAL_StatusTypeDef)
    (he : e ≠ HAL_OK) (hp : env.status (s.log ++ [BusEvent.probe]) = e) :
    LCD1602_I2C_SendToLCD env w b s = (e, { s with log := s.log ++ [BusEvent.probe] }) := by
  simp [LCD1602_I2C_SendToLCD, HAL_I2C_IsDeviceReady, hp, he]

/-- C15: the tracker update of a shift does not depend on the transmission.  For
every display offset `o` in 0..39 and every behaviour of the transport, after
`LCD1602_I2C_ShiftDisplay(1)` the offset is `(o + 1) mod 40` and after
`LCD1602_I2C_ShiftDisplay(0)` it is `(o + 39) mod 40`, also when the probe fails
with a status `e` and the call returns `e`; after a cursor-mode shift the
tracked cursor is the one computed before the transmission, also when the call
returns the error status `e`. -/
theorem C15_shift_updates_unconditionally (env : Env) (s : Driver)
    (ho : s.g_displayOffset < 40) :
    (LCD1602_I2C_ShiftDisplay env 1 s).2.g_displayOffset = (s.g_displayOffset + 1) % 40 ∧
      (LCD1602_I2C_ShiftDisplay env 0 s).2.g_displayOffset = (s.g_displayOffset + 39) % 40 ∧
      (∀ dir, (LCD1602_I2C_CursorDisplayShift env 0 dir s).2.g_cursorPos =
        (LCD1602_I2C_CursorDisplayShift_update 0 dir s).2.g_cursorPos) ∧
      (∀ e, e ≠ HAL_OK → env.status (s.log ++ [BusEvent.probe]) = e →
        (LCD1602_I2C_ShiftDisplay env 1 s).1 = e ∧
        (LCD1602_I2C_ShiftDisplay env 0 s).1 = e ∧
        ∀ dir, (LCD1602_I2C_CursorDisplayShift env 0 dir s).1 = e) := by
  refine ⟨ShiftDisplay_right_mod env s ho, ShiftDisplay_left_mod env s ho,
    fun dir => CursorDisplayShift_cursor env dir s, ?_⟩
  intro e he hp
  have hshift : ∀ display dir, (LCD1602_I2C_CursorDisplayShift env display dir s).1 = e := by
    intro display dir
    have hlog : (LCD1602_I2C_CursorDisplayShift_update display dir s).2.log = s.log := by
      simp only [LCD1602_I2C_CursorDisplayShift_update]
      split_ifs <;> rfl
    simp only [LCD1602_I2C_CursorDisplayShift]
    rw [SendToLCD_probe_fails env _ _ _ e he (by rw [hlog]; exact hp)]
  refine ⟨?_, ?_, fun dir => hshift 0 dir⟩
  · simp only [LCD1602_I2C_ShiftDisplay]
    rw [if_neg (by decide)]
    exact hshift _ _
  · simp only [LCD1602_I2C_ShiftDisplay]
    rw [if_neg (by decide)]
    exact hshift _ _

/-- Witness of C15: offset 39, over a transport whose probe fails with
`HAL_ERROR`: the right shift returns `HAL_ERROR` and the offset is 0. -/
theorem C15_shift_updates_unconditionally_witness :
    (39 : Nat) < 40 ∧
      (LCD1602_I2C_ShiftDisplay (envFailAt 1 HAL_ERROR) 1
        { Driver.initial with g_displayOffset := 39 }).2.g_displayOffset = (39 + 1) % 40 ∧
      (HAL_ERROR ≠ HAL_OK ∧
        (envFailAt 1 HAL_ERROR).status
          ({ Driver.initial with g_displayOffset := 39 }.log ++ [BusEvent.probe]) = HAL_ERROR ∧
        (LCD1602_I2C_ShiftDisplay (envFailAt 1 HAL_ERROR) 1
          { Driver.initial with g_displayOffset := 39 }).1 = HAL_ERROR) :=
  ⟨by decide,
    (C15_shift_updates_unconditionally (envFailAt 1 HAL_ERROR)
      { Driver.initial with g_displayOffset := 39 } (by decide)).1,
    by decide, by decide,
    ((C15_shift_updates_unconditionally (envFailAt 1 HAL_ERROR)
      { Driver.initial with g_displayOffset := 39 } (by decide)).2.2.2
        HAL_ERROR (by decide) (by decide)).1⟩

theorem ShowString_loop_stops (env : Env) (pre : List Nat) (c : Nat) (post : List Nat)
    (e : HAL_StatusTypeDef) (s : Driver)
    (hpre : ∀ p ∈ pre, u8 p ≠ 0) (hc : u8 c ≠ 0)
    (hok : writesSucceed env pre s = true)
    (hfail : (LCD1602_I2C_Write_Data env (u8 c) (afterWrites env pre s)).1 = e)
    (he : e ≠ HAL_OK) :
    LCD1602_I2C_ShowString_loop env (pre ++ c :: post) HAL_OK s =
      (e, (LCD1602_I2C_Write_Data env (u8 c) (afterWrites env pre s)).2) := by
  induction pre generalizing s with
  | nil =>
    simp only [afterWrites] at hfail
    simp only [List.nil_append, LCD1602_I2C_ShowString_loop, hc, if_false, hfail, ne_eq, he,
      not_false_eq_true, if_true, afterWrites]
    rw [← hfail]
  | cons p pre ih =>
    have hp : u8 p ≠ 0 := hpre p (List.mem_cons_self p pre)
    have hrest : ∀ q ∈ pre, u8 q ≠ 0 := fun q hq => hpre q (List.mem_cons_of_mem p hq)
    simp only [writesSucceed, Bool.and_eq_true, decide_eq_true_eq] at hok
    obtain ⟨h1, h2⟩ := hok
    simp only [afterWrites] at hfail
    simp only [List.cons_append, LCD1602_I2C_ShowString_loop, hp, if_false, h1, ne_eq,
      not_true_eq_false, afterWrites]
    exact ih _ hrest h2 hfail

/-- C16: let the string be `pre`, then the character `c`, then `post`, with no
zero byte in `pre` and `c`.  If the write-data operations of the characters of
`pre` return `HAL_OK` and the write-data operation of `c` returns a status `e`
other than `HAL_OK`, then `LCD1602_I2C_ShowString` returns `e` and stops in the
state the failing operation left: nothing is issued for the characters of
`post`.  For the empty string it returns `HAL_OK` and the state, bus history
included, is unchanged. -/
theorem C16_ShowString_stops_at_failure (env : Env) (s : Driver) (pre : List Nat) (c : Nat)
    (post : List Nat) (e : HAL_StatusTypeDef)
    (hpre : ∀ p ∈ pre, u8 p ≠ 0) (hc : u8 c ≠ 0)
    (hok : writesSucceed env pre s = true)
    (hfail : (LCD1602_I2C_Write_Data env (u8 c) (afterWrites env pre s)).1 = e)
    (he : e ≠ HAL_OK) :
    LCD1602_I2C_ShowString env (pre ++ c :: post) s =
        (e, (LCD1602_I2C_Write_Data env (u8 c) (afterWrites env pre s)).2) ∧
      LCD1602_I2C_ShowString env [] s = (HAL_OK, s) :=
  ⟨ShowString_loop_stops env pre c post e s hpre hc hok hfail he, rfl⟩

/-- Witness of C16: the string "ABC" over a transport whose seventh transaction
(the first write of the character B) fails: the call returns `HAL_ERROR` after
the five transactions of A, the probe of B and the failed write. -/
theorem C16_ShowString_stops_at_failure_witness :
    (∀ p ∈ [0x41], u8 p ≠ 0) ∧ u8 0x42 ≠ 0 ∧
      writesSucceed (envFailAt 7 HAL_ERROR) [0x41] Driver.initial = true ∧
      (LCD1602_I2C_Write_Data (envFailAt 7 HAL_ERROR) (u8 0x42)
        (afterWrites (envFailAt 7 HAL_ERROR) [0x41] Driver.initial)).1 = HAL_ERROR ∧
      HAL_ERROR ≠ HAL_OK ∧
      LCD1602_I2C_ShowString (envFailAt 7 HAL_ERROR) ([0x41] ++ 0x42 :: [0x43]) Driver.initial =
        (HAL_ERROR, { Driver.initial with log :=
          [BusEvent.probe, BusEvent.write 0x4D, BusEvent.write 0x49, BusEvent.write 0x1D,
            BusEvent.write 0x19, BusEvent.probe, BusEvent.write 0x4D] }) :=
  ⟨by decide, by decide, by decide, by decide, by decide,
    (C16_ShowString_stops_at_failure (envFailAt 7 HAL_ERROR) Driver.initial [0x41] 0x42 [0x43]
      HAL_ERROR (by decide) (by decide) (by decide) (by decide) (by decide)).1⟩

theorem ShowString_loop_frame (env : Env) (str : List Nat) (status : LCD1602_I2C_Status_t)
    (s : Driver) :
    (LCD1602_I2C_ShowString_loop env str status s).2.g_displayOffset = s.g_displayOffset ∧
      (LCD1602_I2C_ShowString_loop env str status s).2.g_cursorPos = s.g_cursorPos := by
  induction str generalizing status s with
  | nil => exact ⟨rfl, rfl⟩
  | cons c str ih =>
    simp only [LCD1602_I2C_ShowString_loop]
    split_ifs with h0 h1
    · exact ⟨rfl, rfl⟩
    · exact SendToLCD_frame env s _ 1
    · obtain ⟨ho, hc⟩ := ih (LCD1602_I2C_Write_Data env (u8 c) s).1
        (LCD1602_I2C_Write_Data env (u8 c) s).2
      have hf := SendToLCD_frame env s (LCD1602_I2C_Write_Data_cmd (u8 c)) 1
      exact ⟨ho.trans hf.1, hc.trans hf.2⟩

theorem MoveCursor_offset (env : Env) (x y : Int) (s : Driver) :
    (LCD1602_I2C_MoveCursor env x y s).2.g_displayOffset = s.g_displayOffset := by
  simp only [LCD1602_I2C_MoveCursor]
  split_ifs <;> first | rfl | exact (SendToLCD_frame env _ _ 1).1

theorem CursorDisplayShift_frame (env : Env) (display dir : Nat) (s : Driver) :
    (LCD1602_I2C_CursorDisplayShift env display dir s).2.g_displayOffset =
        (LCD1602_I2C_CursorDisplayShift_update display dir s).2.g_displayOffset ∧
      (LCD1602_I2C_CursorDisplayShift env display dir s).2.g_cursorPos =
        (LCD1602_I2C_CursorDisplayShift_update display dir s).2.g_cursorPos := by
  simp only [LCD1602_I2C_CursorDisplayShift]
  exact SendToLCD_frame env _ _ 1

theorem update_cursor_mode_offset (dir : Nat) (s : Driver) :
    (LCD1602_I2C_CursorDisplayShift_update 0 dir s).2.g_displayOffset = s.g_displayOffset := by
  simp only [LCD1602_I2C_CursorDisplayShift_update]
  rw [if_neg (by decide)]
  split_ifs <;> rfl

theorem update_display_mode_cursor (display dir : Nat) (hd : display ≠ 0) (s : Driver) :
    (LCD1602_I2C_CursorDisplayShift_update display dir s).2.g_cursorPos = s.g_cursorPos := by
  simp only [LCD1602_I2C_CursorDisplayShift_update]
  rw [if_pos hd]
  split_ifs <;> rfl

theorem ShiftDisplay_cursor (env : Env) (right : Int) (s : Driver) :
    (LCD1602_I2C_ShiftDisplay env right s).2.g_cursorPos = s.g_cursorPos := by
  simp only [LCD1602_I2C_ShiftDisplay]
  split_ifs
  · rfl
  · rw [(CursorDisplayShift_frame env 1 _ s).2]
    exact update_display_mode_cursor 1 _ (by decide) s

/-- C17: for every prior state, all arguments and every behaviour of the
transport, `LCD1602_I2C_Clear`, `LCD1602_I2C_MoveCursor`, `LCD1602_I2C_ShowChar`,
`LCD1602_I2C_ShowString` and the cursor-mode shift
`LCD1602_I2C_CursorDisplayShift(0, dir)` leave the display offset unchanged, and
the display-mode shift (`LCD1602_I2C_ShiftDisplay`, and
`LCD1602_I2C_CursorDisplayShift` with a non-zero first argument) leaves the
tracked cursor position unchanged. -/
theorem C17_display_offset_frame (env : Env) (s : Driver) (x y right : Int) (c dir display : Nat)
    (str : List Nat) (hd : display ≠ 0) :
    (LCD1602_I2C_Clear env s).2.g_displayOffset = s.g_displayOffset ∧
      (LCD1602_I2C_MoveCursor env x y s).2.g_displayOffset = s.g_displayOffset ∧
      (LCD1602_I2C_ShowChar env c s).2.g_displayOffset = s.g_displayOffset ∧
      (LCD1602_I2C_ShowString env str s).2.g_displayOffset = s.g_displayOffset ∧
      (LCD1602_I2C_CursorDisplayShift env 0 dir s).2.g_displayOffset = s.g_displayOffset ∧
      (LCD1602_I2C_ShiftDisplay env right s).2.g_cursorPos = s.g_cursorPos ∧
      (LCD1602_I2C_CursorDisplayShift env display dir s).2.g_cursorPos = s.g_cursorPos := by
  refine ⟨(SendToLCD_frame env s _ 1).1, MoveCursor_offset env x y s,
    (SendToLCD_frame env s _ 1).1, (ShowString_loop_frame env str HAL_OK s).1, ?_,
    ShiftDisplay_cursor env right s, ?_⟩
  · rw [(CursorDisplayShift_frame env 0 dir s).1]
    exact update_cursor_mode_offset dir s
  · rw [(CursorDisplayShift_frame env display dir s).2]
    exact update_display_mode_cursor display dir hd s

/-- Witness of C17: offset 7 and cursor (3, 1), display-mode shift to the right,
over a transport that always succeeds. -/
theorem C17_display_offset_frame_witness :
    (1 : Nat) ≠ 0 ∧
      (LCD1602_I2C_CursorDisplayShift envAllOK 1 1
        { g_displayOffset := 7, g_cursorPos := (3, 1), log := [] }).2.g_cursorPos = (3, 1) ∧
      (LCD1602_I2C_ShowString envAllOK [0x41, 0x42]
        { g_displayOffset := 7, g_cursorPos := (3, 1), log := [] }).2.g_displayOffset = 7 :=
  ⟨by decide,
    (C17_display_offset_frame envAllOK { g_displayOffset := 7, g_cursorPos := (3, 1), log := [] }
      0 0 1 0x41 1 1 [0x41, 0x42] (by decide)).2.2.2.2.2.2,
    (C17_display_offset_frame envAllOK { g_displayOffset := 7, g_cursorPos := (3, 1), log := [] }
      0 0 1 0x41 1 1 [0x41, 0x42] (by decide)).2.2.2.1⟩

/-- C18: for every character, every string, every prior state and every
behaviour of the transport, `LCD1602_I2C_ShowChar` and `LCD1602_I2C_ShowString`
leave the tracked cursor position (column and row) as it was. -/
theorem C18_show_keeps_cursor (env : Env) (s : Driver) (c : Nat) (str : List Nat) :
    (LCD1602_I2C_ShowChar env c s).2.g_cursorPos = s.g_cursorPos ∧
      (LCD1602_I2C_ShowString env str s).2.g_cursorPos = s.g_cursorPos :=
  ⟨(SendToLCD_frame env s _ 1).2, (ShowString_loop_frame env str HAL_OK s).2⟩

/-! ## Encoders, and the range invariant of the tracker -/

theorem SendToLCD_transmitsOnce (env : Env) (s : Driver) (w : Nat) :
    transmitsOnce env w s (LCD1602_I2C_SendToLCD env w 1 s) := by
  refine ⟨(SendToLCD_frame env s w 1).1, (SendToLCD_frame env s w 1).2, ?_⟩
  unfold LCD1602_I2C_SendToLCD HAL_I2C_IsDeviceReady HAL_I2C_Master_Transmit
  simp only [SendToLCD_data1_eq, SendToLCD_data2_eq, SendToLCD_data3_eq, SendToLCD_data4_eq]
  split_ifs with h0 h1 h2 h3
  · exact ⟨0, by decide, by simp [wireBytes], by simp [answersOK], rfl, fun _ => h0⟩
  · refine ⟨1, by decide, by simp [wireBytes], ?_, rfl, fun _ => h1⟩
    simp at h0
    simp [answersOK, h0]
  · refine ⟨2, by decide, by simp [wireBytes], ?_, rfl, fun _ => h2⟩
    simp at h0 h1
    simp [answersOK, wireBytes, h0, h1]
  · refine ⟨3, by decide, by simp [wireBytes], ?_, rfl, fun _ => h3⟩
    simp at h0 h1 h2
    simp [answersOK, wireBytes, h0, h1, h2]
  · refine ⟨4, by decide, by simp [wireBytes], ?_, rfl, fun h => absurd h (by decide)⟩
    simp at h0 h1 h2 h3
    simp [answersOK, wireBytes, h0, h1, h2, h3]

theorem update_log (display dir : Nat) (s : Driver) :
    (LCD1602_I2C_CursorDisplayShift_update display dir s).2.log = s.log := by
  simp only [LCD1602_I2C_CursorDisplayShift_update]
  split_ifs <;> rfl

/-- C19, the claim as stated fails: from the initial state over a transport that
always succeeds, the encoder `LCD1602_I2C_Clear_Display` performs a probe and
four writes, and the encoder `LCD1602_I2C_CursorDisplayShift(1, 1)` changes the
display offset from 0 to 1. -/
theorem C19_encoders_transmit_counterexample :
    (LCD1602_I2C_Clear_Display envAllOK Driver.initial).2.log =
        [BusEvent.probe, BusEvent.write 0x0C, BusEvent.write 0x08, BusEvent.write 0x1C,
          BusEvent.write 0x18] ∧
      (LCD1602_I2C_Clear_Display envAllOK Driver.initial).2.log ≠ Driver.initial.log ∧
      (LCD1602_I2C_CursorDisplayShift envAllOK 1 1 Driver.initial).2.g_displayOffset = 1 ∧
      (LCD1602_I2C_CursorDisplayShift envAllOK 1 1 Driver.initial).2.g_displayOffset ≠
        Driver.initial.g_displayOffset := by
  decide

/-- C19 amended: every command encoder builds its command byte from its
parameters alone and transmits it once.  For clear display, return home, entry
mode set, display control, function set, set CGRAM address, set DDRAM address
and write data, the outcome is that of one transmission of the word loaded from
that byte: one probe and at most four writes are added to the bus history, the
transmission stops at the first transaction that is not answered `HAL_OK`, the
status returned is the answer of the transport to the last transaction issued,
and display offset and tracked cursor are unchanged.  Cursor/display shift
first updates the tracker, without bus access, and then transmits its command
byte in the same way from the updated state. -/
theorem C19_encoders_build_then_transmit (env : Env) (s : Driver) (increment shift displayOn
    cursorOn blinkOn shiftDisplay shiftRight numLines fontType address data : Nat) :
    transmitsOnce env (load16 env s LCD1602_I2C_Clear_Display_cmd) s
        (LCD1602_I2C_Clear_Display env s) ∧
      transmitsOnce env (load16 env s LCD1602_I2C_ReturnHome_cmd) s
        (LCD1602_I2C_ReturnHome env s) ∧
      transmitsOnce env (load16 env s (LCD1602_I2C_EntryModeSet_cmd increment shift)) s
        (LCD1602_I2C_EntryModeSet env increment shift s) ∧
      transmitsOnce env (load16 env s (LCD1602_I2C_DisplayControl_cmd displayOn cursorOn blinkOn)) s
        (LCD1602_I2C_DisplayControl env displayOn cursorOn blinkOn s) ∧
      transmitsOnce env (load16 env s (LCD1602_I2C_FunctionSet_cmd numLines fontType)) s
        (LCD1602_I2C_FunctionSet env numLines fontType s) ∧
      transmitsOnce env (load16 env s (LCD1602_I2C_SetCGRAMAddress_cmd address)) s
        (LCD1602_I2C_SetCGRAMAddress env address s) ∧
      transmitsOnce env (load16 env s (LCD1602_I2C_SetDDRAMAddress_cmd address)) s
        (LCD1602_I2C_SetDDRAMAddress env address s) ∧
      transmitsOnce env (LCD1602_I2C_Write_Data_cmd data) s (LCD1602_I2C_Write_Data env data s) ∧
      (LCD1602_I2C_CursorDisplayShift_update shiftDisplay shiftRight s).2.log = s.log ∧
      transmitsOnce env
        (load16 env s (0x10 ||| (if shiftDisplay ≠ 0 then 0x08 else 0) |||
          (if shiftRight ≠ 0 then 0x04 else 0)))
        (LCD1602_I2C_CursorDisplayShift_update shiftDisplay shiftRight s).2
        (LCD1602_I2C_CursorDisplayShift env shiftDisplay shiftRight s) := by
  refine ⟨SendToLCD_transmitsOnce env s _, SendToLCD_transmitsOnce env s _,
    SendToLCD_transmitsOnce env s _, SendToLCD_transmitsOnce env s _,
    SendToLCD_transmitsOnce env s _, SendToLCD_transmitsOnce env s _,
    SendToLCD_transmitsOnce env s _, SendToLCD_transmitsOnce env s _,
    update_log shiftDisplay shiftRight s, ?_⟩
  have h := SendToLCD_transmitsOnce env
    (LCD1602_I2C_CursorDisplayShift_update shiftDisplay shiftRight s).2
    (load16 env (LCD1602_I2C_CursorDisplayShift_update shiftDisplay shiftRight s).2
      (LCD1602_I2C_CursorDisplayShift_update shiftDisplay shiftRight s).1)
  have hl : load16 env (LCD1602_I2C_CursorDisplayShift_update shiftDisplay shiftRight s).2
      (LCD1602_I2C_CursorDisplayShift_update shiftDisplay shiftRight s).1 =
      load16 env s (0x10 ||| (if shiftDisplay ≠ 0 then 0x08 else 0) |||
          (if shiftRight ≠ 0 then 0x04 else 0)) := by
    unfold load16
    rw [update_log, CursorDisplayShift_cmd_eq]
  rw [← hl]
  exact h

theorem Transmit_offset (env : Env) (data : Nat) (s : Driver) :
    (HAL_I2C_Master_Transmit env data s).2.g_displayOffset = s.g_displayOffset := rfl

theorem Transmit_cursor (env : Env) (data : Nat) (s : Driver) :
    (HAL_I2C_Master_Transmit env data s).2.g_cursorPos = s.g_cursorPos := rfl

theorem SendToLCD_offset (env : Env) (w b : Nat) (s : Driver) :
    (LCD1602_I2C_SendToLCD env w b s).2.g_displayOffset = s.g_displayOffset :=
  (SendToLCD_frame env s w b).1

theorem SendToLCD_cursor (env : Env) (w b : Nat) (s : Driver) :
    (LCD1602_I2C_SendToLCD env w b s).2.g_cursorPos = s.g_cursorPos :=
  (SendToLCD_frame env s w b).2

theorem Set4BitMode_offset (env : Env) (s : Driver) :
    (LCD1602_I2C_Set4BitMode env s).2.g_displayOffset = s.g_displayOffset := by
  simp only [LCD1602_I2C_Set4BitMode]
  split_ifs <;> rfl

theorem Set4BitMode_cursor (env : Env) (s : Driver) :
    (LCD1602_I2C_Set4BitMode env s).2.g_cursorPos = s.g_cursorPos := by
  simp only [LCD1602_I2C_Set4BitMode]
  split_ifs <;> rfl

/-- The initialization sequence only talks to the bus: display offset and
tracked cursor are unchanged. -/
theorem Init_frame (env : Env) (s : Driver) :
    (LCD1602_I2C_Init env s).2.g_displayOffset = s.g_displayOffset ∧
      (LCD1602_I2C_Init env s).2.g_cursorPos = s.g_cursorPos := by
  simp only [LCD1602_I2C_Init, LCD1602_I2C_FunctionSet, LCD1602_I2C_DisplayControl,
    LCD1602_I2C_Clear_Display, LCD1602_I2C_EntryModeSet]
  split_ifs <;>
    simp only [SendToLCD_offset, SendToLCD_cursor, Set4BitMode_offset, Set4BitMode_cursor,
      Transmit_offset, Transmit_cursor, and_self]

theorem update_inRange (display dir : Nat) (s : Driver) (h : inRange s) :
    inRange (LCD1602_I2C_CursorDisplayShift_update display dir s).2 := by
  obtain ⟨ho, hc, hr⟩ := h
  simp only [LCD1602_I2C_CursorDisplayShift_update, u8, u8i]
  split_ifs <;> refine ⟨?_, ?_, ?_⟩ <;> simp only [] <;> omega

theorem inRange_of_frame (s t : Driver) (h : inRange s)
    (ho : t.g_displayOffset = s.g_displayOffset) (hc : t.g_cursorPos = s.g_cursorPos) :
    inRange t := by
  unfold inRange at *
  rw [ho, hc]
  exact h

theorem CursorDisplayShift_inRange (env : Env) (display dir : Nat) (s : Driver)
    (h : inRange s) : inRange (LCD1602_I2C_CursorDisplayShift env display dir s).2 :=
  inRange_of_frame _ _ (update_inRange display dir s h)
    (CursorDisplayShift_frame env display dir s).1 (CursorDisplayShift_frame env display dir s).2

theorem MoveCursor_inRange (env : Env) (x y : Int) (s : Driver) (h : inRange s) :
    inRange (LCD1602_I2C_MoveCursor env x y s).2 := by
  by_cases hbad : x < 0 ∨ x ≥ 40 ∨ y < 0 ∨ y ≥ 2
  · simp only [LCD1602_I2C_MoveCursor, hbad, if_true]
    exact h
  · have hpos : (LCD1602_I2C_MoveCursor env x y s).2.g_cursorPos = (u8i x, u8i y) := by
      simp only [LCD1602_I2C_MoveCursor, hbad, if_false, LCD1602_I2C_SetDDRAMAddress]
      exact SendToLCD_cursor env _ 1 _
    refine ⟨?_, ?_, ?_⟩
    · rw [MoveCursor_offset]
      exact h.1
    · rw [hpos]
      simp only [u8i]
      omega
    · rw [hpos]
      simp only [u8i]
      omega

theorem Op_run_inRange (env : Env) (op : Op) (s : Driver) (h : inRange s) :
    inRange (op.run env s).2 := by
  cases op with
  | init => exact inRange_of_frame _ _ h (Init_frame env s).1 (Init_frame env s).2
  | clear => exact inRange_of_frame _ _ h (SendToLCD_offset env _ 1 s) (SendToLCD_cursor env _ 1 s)
  | moveCursor x y => exact MoveCursor_inRange env x y s h
  | showChar c =>
    exact inRange_of_frame _ _ h (SendToLCD_offset env _ 1 s) (SendToLCD_cursor env _ 1 s)
  | showString str =>
    exact inRange_of_frame _ _ h (ShowString_loop_frame env str HAL_OK s).1
      (ShowString_loop_frame env str HAL_OK s).2
  | shiftDisplay right =>
    simp only [Op.run, LCD1602_I2C_ShiftDisplay]
    split_ifs
    · exact h
    · exact CursorDisplayShift_inRange env 1 _ s h
  | cursorDisplayShift display dir => exact CursorDisplayShift_inRange env display dir s h

theorem runOps_inRange (env : Env) (ops : List Op) (s : Driver) (h : inRange s) :
    inRange (runOps env ops s) := by
  induction ops generalizing s with
  | nil => exact h
  | cons op ops ih => exact ih _ (Op_run_inRange env op s h)

/-- C20: the range predicate (display offset in 0..39, cursor column in 0..39,
cursor row in 0..1) holds in the initial state and is preserved by every
operation (`LCD1602_I2C_Init`, `LCD1602_I2C_Clear`, `LCD1602_I2C_MoveCursor`,
`LCD1602_I2C_ShowChar`, `LCD1602_I2C_ShowString`, `LCD1602_I2C_ShiftDisplay`,
`LCD1602_I2C_CursorDisplayShift`) for all arguments and all behaviours of the
transport; hence it holds after every sequence of calls from the initial
state. -/
theorem C20_tracker_range_invariant :
    inRange Driver.initial ∧
      (∀ (env : Env) (op : Op) (s : Driver), inRange s → inRange (op.run env s).2) ∧
      (∀ (env : Env) (ops : List Op), inRange (runOps env ops Driver.initial)) :=
  ⟨by decide, Op_run_inRange,
    fun env ops => runOps_inRange env ops Driver.initial (by decide)⟩

/-- Witness of C20: the state with cursor (39, 1) is in range and stays in range
after a left display shift over a transport whose probe fails; the initial
state stays in range after a left display shift and a right cursor shift. -/
theorem C20_tracker_range_invariant_witness :
    inRange { Driver.initial with g_cursorPos := (39, 1) } ∧
      inRange ((Op.shiftDisplay 0).run (envFailAt 1 HAL_ERROR)
        { Driver.initial with g_cursorPos := (39, 1) }).2 ∧
      inRange (runOps envAllOK [Op.shiftDisplay 0, Op.cursorDisplayShift 0 1]
        Driver.initial) :=
  ⟨by decide,
    C20_tracker_range_invariant.2.1 (envFailAt 1 HAL_ERROR) (Op.shiftDisplay 0)
      { Driver.initial with g_cursorPos := (39, 1) } (by decide),
    C20_tracker_range_invariant.2.2 envAllOK [Op.shiftDisplay 0, Op.cursorDisplayShift 0 1]⟩

/-! ## Left and right shifts are inverse to each other -/

theorem cursor_right_formula (env : Env) (s : Driver)
    (hc : s.g_cursorPos.1 < 40) (hr : s.g_cursorPos.2 < 2) :
    (LCD1602_I2C_CursorDisplayShift env 0 1 s).2.g_cursorPos =
      if s.g_cursorPos.1 < 39 then (s.g_cursorPos.1 + 1, s.g_cursorPos.2)
      else (0, 1 - s.g_cursorPos.2) := by
  obtain ⟨off, ⟨c, r⟩, log⟩ := s
  simp only at hc hr
  rw [CursorDisplayShift_cursor]
  simp only [LCD1602_I2C_CursorDisplayShift_update, u8]
  rw [if_neg (by decide), if_pos (by decide)]
  split_ifs <;> simp only [Prod.mk.injEq, true_and, and_true] <;> omega

theorem cursor_left_formula (env : Env) (s : Driver)
    (hc : s.g_cursorPos.1 < 40) (hr : s.g_cursorPos.2 < 2) :
    (LCD1602_I2C_CursorDisplayShift env 0 0 s).2.g_cursorPos =
      if s.g_cursorPos.1 > 0 then (s.g_cursorPos.1 - 1, s.g_cursorPos.2)
      else (39, 1 - s.g_cursorPos.2) := by
  obtain ⟨off, ⟨c, r⟩, log⟩ := s
  simp only at hc hr
  rw [CursorDisplayShift_cursor]
  simp only [LCD1602_I2C_CursorDisplayShift_update, u8i]
  rw [if_neg (by decide), if_neg (by decide)]
  split_ifs <;> simp only [Prod.mk.injEq, true_and, and_true] <;> omega

theorem cursor_right_then_left (env : Env) (s : Driver)
    (hc : s.g_cursorPos.1 < 40) (hr : s.g_cursorPos.2 < 2) :
    (LCD1602_I2C_CursorDisplayShift env 0 0
      (LCD1602_I2C_CursorDisplayShift env 0 1 s).2).2.g_cursorPos = s.g_cursorPos := by
  have h1 := cursor_right_formula env s hc hr
  by_cases hlt : s.g_cursorPos.1 < 39
  · rw [if_pos hlt] at h1
    have h2 := cursor_left_formula env (LCD1602_I2C_CursorDisplayShift env 0 1 s).2
      (by rw [h1]; show s.g_cursorPos.1 + 1 < 40; omega) (by rw [h1]; exact hr)
    rw [h2, h1]
    show (if s.g_cursorPos.1 + 1 > 0 then (s.g_cursorPos.1 + 1 - 1, s.g_cursorPos.2)
      else (39, 1 - s.g_cursorPos.2)) = s.g_cursorPos
    rw [if_pos (by omega)]
    exact Prod.ext (by show s.g_cursorPos.1 + 1 - 1 = s.g_cursorPos.1; omega) rfl
  · rw [if_neg hlt] at h1
    have h2 := cursor_left_formula env (LCD1602_I2C_CursorDisplayShift env 0 1 s).2
      (by rw [h1]; show (0 : Nat) < 40; omega) (by rw [h1]; show 1 - s.g_cursorPos.2 < 2; omega)
    rw [h2, h1]
    show (if (0 : Nat) > 0 then ((0 : Nat) - 1, 1 - s.g_cursorPos.2)
      else (39, 1 - (1 - s.g_cursorPos.2))) = s.g_cursorPos
    rw [if_neg (by decide)]
    exact Prod.ext (by show 39 = s.g_cursorPos.1; omega)
      (by show 1 - (1 - s.g_cursorPos.2) = s.g_cursorPos.2; omega)

theorem cursor_left_then_right (env : Env) (s : Driver)
    (hc : s.g_cursorPos.1 < 40) (hr : s.g_cursorPos.2 < 2) :
    (LCD1602_I2C_CursorDisplayShift env 0 1
      (LCD1602_I2C_CursorDisplayShift env 0 0 s).2).2.g_cursorPos = s.g_cursorPos := by
  have h1 := cursor_left_formula env s hc hr
  by_cases hpos : s.g_cursorPos.1 > 0
  · rw [if_pos hpos] at h1
    have h2 := cursor_right_formula env (LCD1602_I2C_CursorDisplayShift env 0 0 s).2
      (by rw [h1]; show s.g_cursorPos.1 - 1 < 40; omega) (by rw [h1]; exact hr)
    rw [h2, h1]
    show (if s.g_cursorPos.1 - 1 < 39 then (s.g_cursorPos.1 - 1 + 1, s.g_cursorPos.2)
      else (0, 1 - s.g_cursorPos.2)) = s.g_cursorPos
    rw [if_pos (by omega)]
    exact Prod.ext (by show s.g_cursorPos.1 - 1 + 1 = s.g_cursorPos.1; omega) rfl
  · rw [if_neg hpos] at h1
    have h2 := cursor_right_formula env (LCD1602_I2C_CursorDisplayShift env 0 0 s).2
      (by rw [h1]; show (39 : Nat) < 40; omega) (by rw [h1]; show 1 - s.g_cursorPos.2 < 2; omega)
    rw [h2, h1]
    show (if (39 : Nat) < 39 then ((39 : Nat) + 1, 1 - s.g_cursorPos.2)
      else (0, 1 - (1 - s.g_cursorPos.2))) = s.g_cursorPos
    rw [if_neg (by decide)]
    exact Prod.ext (by show 0 = s.g_cursorPos.1; omega)
      (by show 1 - (1 - s.g_cursorPos.2) = s.g_cursorPos.2; omega)

/-- C21: for every state in range (display offset in 0..39, cursor column in
0..39, cursor row in 0..1) and every behaviour of the transport, a display-mode
shift right followed by one left, or left followed by right, restores the
display offset, and a cursor-mode shift right followed by one left, or left
followed by right, restores the tracked cursor (column and row), the row
rollover at columns 0 and 39 included. -/
theorem C21_shifts_mutually_inverse (env : Env) (s : Driver) (h : inRange s) :
    (LCD1602_I2C_ShiftDisplay env 0 (LCD1602_I2C_ShiftDisplay env 1 s).2).2.g_displayOffset =
        s.g_displayOffset ∧
      (LCD1602_I2C_ShiftDisplay env 1 (LCD1602_I2C_ShiftDisplay env 0 s).2).2.g_displayOffset =
        s.g_displayOffset ∧
      (LCD1602_I2C_CursorDisplayShift env 0 0
        (LCD1602_I2C_CursorDisplayShift env 0 1 s).2).2.g_cursorPos = s.g_cursorPos ∧
      (LCD1602_I2C_CursorDisplayShift env 0 1
        (LCD1602_I2C_CursorDisplayShift env 0 0 s).2).2.g_cursorPos = s.g_cursorPos := by
  obtain ⟨ho, hc, hr⟩ := h
  have hR := ShiftDisplay_right_mod env s ho
  have hL := ShiftDisplay_left_mod env s ho
  refine ⟨?_, ?_, cursor_right_then_left env s hc hr, cursor_left_then_right env s hc hr⟩
  · rw [ShiftDisplay_left_mod env _ (by rw [hR]; omega), hR]
    omega
  · rw [ShiftDisplay_right_mod env _ (by rw [hL]; omega), hL]
    omega

/-- Witness of C21: the rollover states, cursor (39, 0) with offset 39 and
cursor (0, 1) with offset 0, over a transport whose second transaction fails. -/
theorem C21_shifts_mutually_inverse_witness :
    (inRange { g_displayOffset := 39, g_cursorPos := (39, 0), log := [] } ∧
      (LCD1602_I2C_ShiftDisplay (envFailAt 2 HAL_ERROR) 0
        (LCD1602_I2C_ShiftDisplay (envFailAt 2 HAL_ERROR) 1
          { g_displayOffset := 39, g_cursorPos := (39, 0), log := [] }).2).2.g_displayOffset
        = 39 ∧
      (LCD1602_I2C_CursorDisplayShift (envFailAt 2 HAL_ERROR) 0 0
        (LCD1602_I2C_CursorDisplayShift (envFailAt 2 HAL_ERROR) 0 1
          { g_displayOffset := 39, g_cursorPos := (39, 0), log := [] }).2).2.g_cursorPos
        = (39, 0)) ∧
    (inRange { g_displayOffset := 0, g_cursorPos := (0, 1), log := [] } ∧
      (LCD1602_I2C_ShiftDisplay (envFailAt 2 HAL_ERROR) 1
        (LCD1602_I2C_ShiftDisplay (envFailAt 2 HAL_ERROR) 0
          { g_displayOffset := 0, g_cursorPos := (0, 1), log := [] }).2).2.g_displayOffset
        = 0 ∧
      (LCD1602_I2C_CursorDisplayShift (envFailAt 2 HAL_ERROR) 0 1
        (LCD1602_I2C_CursorDisplayShift (envFailAt 2 HAL_ERROR) 0 0
          { g_displayOffset := 0, g_cursorPos := (0, 1), log := [] }).2).2.g_cursorPos
        = (0, 1)) :=
  ⟨⟨by decide,
      (C21_shifts_mutually_inverse (envFailAt 2 HAL_ERROR)
        { g_displayOffset := 39, g_cursorPos := (39, 0), log := [] } (by decide)).1,
      (C21_shifts_mutually_inverse (envFailAt 2 HAL_ERROR)
        { g_displayOffset := 39, g_cursorPos := (39, 0), log := [] } (by decide)).2.2.1⟩,
    ⟨by decide,
      (C21_shifts_mutually_inverse (envFailAt 2 HAL_ERROR)
        { g_displayOffset := 0, g_cursorPos := (0, 1), log := [] } (by decide)).2.1,
      (C21_shifts_mutually_inverse (envFailAt 2 HAL_ERROR)
        { g_displayOffset := 0, g_cursorPos := (0, 1), log := [] } (by decide)).2.2.2⟩⟩

end LcdI2c
